import Mathlib

/-!
# NEXT geometry builders: `NextDemoSiPMBoard` and `Next100OpticalGeometry`

A shallow embedding of `source/geometries/NextDemoSiPMBoard.cc` and
`source/geometries/Next100OpticalGeometry.cc`.

Conventions of the embedding:

* A finite double is a rational number, and `G4double` is carried by the rationals.
  The arithmetic of the board is embedded in two layers. `Construct`,
  `GenerateSiPMPositions` and `new` read every operation of the source as the exact
  operation; they are used for what does not depend on rounding: control flow, fatal
  errors, strings, counts and the structure of the volume tree. `ConstructWith`,
  `GenerateSiPMPositionsWith` and `newWith` take the rounding function as a parameter
  and apply it to the result of every operation of the source; with `binary64`, the
  rounding to the nearest IEEE 754 double, they are the arithmetic of the compiled
  code, and every statement on a computed length or position is made over them. With
  the identity as rounding they are `Construct`, `GenerateSiPMPositions` and `new`.
* `G4Exception(..., FatalException, ...)` terminates the run; it is the
  `Failure.FatalException` result of the `Except` monad. Dereferencing a null
  pointer or indexing a `std::vector` out of range is `Failure.UndefinedBehaviour`.
* Classes of the toolkit whose code is not part of these two files
  (`SiPMSensl`, `Next100SiPM`, `BoxPointSampler`, `Next100InnerElements`,
  the material factories) appear as plain data or as function parameters.
* Optical surfaces, visibility attributes and console output do not change any
  value studied here and are left out of the volume tree.
-/

namespace nexus

/-! ## Basic toolkit data -/

/-- Carrier of the doubles of the toolkit: a finite double is a rational number. The
rounding of the results of operations is `binary64`, below. -/
abbrev G4double := ℚ

/-- CLHEP length unit: the millimetre is the base unit. -/
def mm : G4double := 1
/-- CLHEP centimetre. -/
def cm : G4double := 10 * mm
/-- CLHEP metre. -/
def m : G4double := 1000 * mm
/-- CLHEP time unit: the nanosecond is the base unit. -/
def nanosecond : G4double := 1
/-- CLHEP microsecond. -/
def microsecond : G4double := 1000 * nanosecond
/-- CLHEP millisecond. -/
def ms : G4double := 1000000 * nanosecond
/-- CLHEP energy unit: the MeV is the base unit. -/
def MeV : G4double := 1
/-- CLHEP temperature unit. -/
def kelvin : G4double := 1

/-- Three-vector of doubles. -/
structure G4ThreeVector where
  x : G4double
  y : G4double
  z : G4double
deriving DecidableEq, Repr

/-- Component-wise sum, `operator+` of the three-vector. -/
def G4ThreeVector.add (a b : G4ThreeVector) : G4ThreeVector :=
  ⟨a.x + b.x, a.y + b.y, a.z + b.z⟩

instance : Add G4ThreeVector := ⟨G4ThreeVector.add⟩

/-- Outcome of a call that does not return normally. -/
inductive Failure where
  | FatalException (origin code description : String)
  | UndefinedBehaviour (what : String)
deriving DecidableEq, Repr

/-- Call of `G4Exception` with severity `FatalException`: the run is aborted. -/
def G4Exception {α : Type} (origin code description : String) : Except Failure α :=
  .error (.FatalException origin code description)

/-- Rotation built by `rotateY` on a fresh matrix; the angle is kept in units of `pi`. -/
structure G4RotationMatrix where
  rotateY_pi : G4double
deriving DecidableEq, Repr

/-- Tables of optical properties that the two builders attach to materials. -/
inductive MaterialPropertiesTable where
  | GXe (pressure temperature sc_yield e_lifetime : G4double)
  | TPB
  | PTFE
deriving DecidableEq, Repr

/-- Bulk composition of a material, by the factory call that made it. -/
inductive MaterialKind where
  | nist (name : String)
  | GXe (pressure temperature : G4double)
  | GXeEnriched (pressure temperature : G4double)
  | GXeDepleted (pressure temperature : G4double)
  | TPB
deriving DecidableEq, Repr

/-- Material with its optional table of optical properties. -/
structure G4Material where
  kind : MaterialKind
  mpt : Option MaterialPropertiesTable
deriving DecidableEq, Repr

/-- `SetMaterialPropertiesTable` on a material. -/
def G4Material.SetMaterialPropertiesTable (self : G4Material)
    (t : MaterialPropertiesTable) : G4Material :=
  { self with mpt := some t }

/-- Solids used by the two builders. Half-lengths as in the toolkit; angles of the
tube are kept in units of `deg`. -/
inductive G4VSolid where
  | G4Box (name : String) (half_x half_y half_z : G4double)
  | G4Tubs (name : String) (rmin rmax half_z sphi_deg dphi_deg : G4double)
deriving DecidableEq, Repr

/-- Logical volume: a solid (a null pointer is `none`), a material and a name. -/
structure G4LogicalVolume where
  solid : Option G4VSolid
  material : G4Material
  name : String
deriving DecidableEq, Repr

/-- Physical volume handed over by the caller as mother volume. -/
structure G4VPhysicalVolume where
  name : String
  logical : G4LogicalVolume
deriving DecidableEq, Repr

/-- Placement of a logical volume inside a mother logical volume. -/
structure G4PVPlacement where
  rot : Option G4RotationMatrix
  tlate : G4ThreeVector
  logical : G4LogicalVolume
  name : String
  mother : G4LogicalVolume
  many : Bool
  copy_no : Nat
  surf_chk : Bool
deriving DecidableEq, Repr

/-- Arguments of the `BoxPointSampler` constructor. -/
structure BoxPointSampler where
  inner_x : G4double
  inner_y : G4double
  inner_z : G4double
  thickness : G4double
  origin : G4ThreeVector
  rotation : Option G4RotationMatrix
deriving DecidableEq, Repr

/-- The two sensor classes the board can instantiate. -/
inductive SiPMKind where
  | SiPMSensl
  | Next100SiPM
deriving DecidableEq, Repr

/-- Setter calls made on a sensor object before its `Construct()`. -/
structure SiPMSettings where
  kind : SiPMKind
  visibility : Bool
  coating : Option Bool
  time_binning : G4double
  sensor_depth : Nat
  mother_depth : Nat
  naming_order : Nat
deriving DecidableEq, Repr

/-- A constructed sensor: its settings, `GetDimensions()` and `GetLogicalVolume()`. -/
structure SiPM where
  settings : SiPMSettings
  dimensions : G4ThreeVector
  logical : G4LogicalVolume
deriving DecidableEq, Repr

/-! ## `NextDemoSiPMBoard` -/

/-- Data members of `NextDemoSiPMBoard` (and the logical volume of `GeometryBase`). -/
structure NextDemoSiPMBoard where
  verbosity_ : Bool
  sipm_verbosity_ : Bool
  visibility_ : Bool
  sipm_visibility_ : Bool
  sipm_coating_ : Bool
  time_binning_ : G4double
  num_columns_ : Nat
  num_rows_ : Nat
  num_sipms_ : Nat
  sipm_pitch_ : G4double
  side_reduction_ : G4double
  kapton_thickn_ : G4double
  mask_thickn_ : G4double
  membrane_thickn_ : G4double
  coating_thickn_ : G4double
  hole_type_ : String
  hole_diam_ : G4double
  hole_x_ : G4double
  hole_y_ : G4double
  sipm_type_ : String
  mother_phys_ : Option G4VPhysicalVolume
  kapton_gen_ : Option BoxPointSampler
  sipm_ : Option SiPM
  board_size_ : G4ThreeVector
  sipm_positions_ : List G4ThreeVector
  logical_volume_ : Option G4LogicalVolume
deriving DecidableEq, Repr

namespace NextDemoSiPMBoard

/-- The constructor `NextDemoSiPMBoard::NextDemoSiPMBoard()`. Members without an
initialiser start empty. -/
def new : NextDemoSiPMBoard :=
  { verbosity_ := false
    sipm_verbosity_ := false
    visibility_ := false
    sipm_visibility_ := true
    sipm_coating_ := false
    time_binning_ := 1 * microsecond
    num_columns_ := 8
    num_rows_ := 8
    num_sipms_ := 8 * 8
    sipm_pitch_ := 10 * mm
    side_reduction_ := (1 / 2) * mm
    kapton_thickn_ := (3 / 10) * mm
    mask_thickn_ := 2 * mm
    membrane_thickn_ := 0
    coating_thickn_ := 0
    hole_type_ := ""
    hole_diam_ := (7 / 2) * mm
    hole_x_ := 0 * mm
    hole_y_ := 0 * mm
    sipm_type_ := ""
    mother_phys_ := none
    kapton_gen_ := none
    sipm_ := none
    board_size_ := ⟨0, 0, 0⟩
    sipm_positions_ := []
    logical_volume_ := none }

/-- The body of `NextDemoSiPMBoard::GenerateSiPMPositions()`: two nested loops of
eight iterations that push one position each onto `sipm_positions_`. -/
def GenerateSiPMPositions (self : NextDemoSiPMBoard) : NextDemoSiPMBoard :=
  let margin : G4double := self.sipm_pitch_ / 2 - self.side_reduction_
  (List.range 8).foldl (fun s i =>
    let sipm_posy : G4double := -s.board_size_.y / 2 + margin + (i : G4double) * s.sipm_pitch_
    (List.range 8).foldl (fun t j =>
      let sipm_posx : G4double := t.board_size_.x / 2 - margin - (j : G4double) * t.sipm_pitch_
      { t with sipm_positions_ := t.sipm_positions_ ++ [⟨sipm_posx, sipm_posy, 0⟩] }) s) self

/-- Lines 125-150 of `Construct()`: the mother-volume check followed by the three
board configuration checks. Returns the gas of the mother volume. -/
def validate (self : NextDemoSiPMBoard) : Except Failure G4Material := do
  let mother ← match self.mother_phys_ with
    | none => G4Exception "[NextDemoSiPMBoard]" "Construct()"
                "Mother physical volume is a nullptr."
    | some p => pure p
  let mother_gas := mother.logical.material
  if self.coating_thickn_ > 0 then
    if self.membrane_thickn_ = 0 then
      (G4Exception "[NextDemoSiPMBoard]" "Construct()" "Coating require membranes" :
        Except Failure Unit)
  if self.membrane_thickn_ > 0 then
    if self.mask_thickn_ = 0 then
      (G4Exception "[NextDemoSiPMBoard]" "Construct()" "Membranes require masks" :
        Except Failure Unit)
  if self.mask_thickn_ > 0 then
    if self.hole_diam_ = 0 then
      (G4Exception "[NextDemoSiPMBoard]" "Construct()" "Masks require holes" :
        Except Failure Unit)
  pure mother_gas

end NextDemoSiPMBoard

/-- The volume tree built by one run of `NextDemoSiPMBoard::Construct()`. -/
structure BoardVolumes where
  board_logic : G4LogicalVolume
  kapton_phys : G4PVPlacement
  mask_phys : G4PVPlacement
  hole_logic : G4LogicalVolume
  sipm_phys : G4PVPlacement
  membrane_phys : Option G4PVPlacement
  hole_phys : List G4PVPlacement
  coating_phys : Option G4PVPlacement
deriving DecidableEq, Repr

namespace NextDemoSiPMBoard

/-- First block of `Construct()` (lines 90-123): the sensor is chosen by
`sipm_type_`. Returns the new value of `sipm_`, `sipm_z_dim` and `sipm_rot`.
For any other type string `sipm_` is left as it was and `sipm_z_dim` stays 0. -/
def selectSiPM (build : SiPMSettings → G4ThreeVector × G4LogicalVolume)
    (self : NextDemoSiPMBoard) : Option SiPM × G4double × G4RotationMatrix :=
  if self.sipm_type_ = "sensl" then
    let cfg : SiPMSettings :=
      { kind := .SiPMSensl, visibility := self.sipm_visibility_, coating := none,
        time_binning := self.time_binning_, sensor_depth := 3, mother_depth := 5,
        naming_order := 1000 }
    let sipm : SiPM := { settings := cfg, dimensions := (build cfg).1, logical := (build cfg).2 }
    (some sipm, sipm.dimensions.z, { rotateY_pi := 1 })
  else if self.sipm_type_ = "next100" then
    let cfg : SiPMSettings :=
      { kind := .Next100SiPM, visibility := self.sipm_visibility_,
        coating := some self.sipm_coating_,
        time_binning := self.time_binning_, sensor_depth := 2, mother_depth := 4,
        naming_order := 1000 }
    let sipm : SiPM := { settings := cfg, dimensions := (build cfg).1, logical := (build cfg).2 }
    (some sipm, sipm.dimensions.z, { rotateY_pi := 0 })
  else
    (self.sipm_, 0, { rotateY_pi := 0 })

/-- The placement loop of `Construct()` (lines 255-258): `remaining` iterations are
left and the loop variable is `sipm_id`; each iteration reads
`sipm_positions_[sipm_id]` and places `hole_logic` in `mask_logic` with copy
number `sipm_id`. -/
def placeHoles (positions : List G4ThreeVector) (hole_logic mask_logic : G4LogicalVolume)
    (hole_name : String) : (remaining : Nat) → (sipm_id : Nat) → Except Failure (List G4PVPlacement)
  | 0, _ => pure []
  | n + 1, sipm_id =>
    match positions[sipm_id]? with
    | none => .error (.UndefinedBehaviour "sipm_positions_ index out of range")
    | some pos => do
      let rest ← placeHoles positions hole_logic mask_logic hole_name n (sipm_id + 1)
      pure ({ rot := none, tlate := pos, logical := hole_logic, name := hole_name,
              mother := mask_logic, many := false, copy_no := sipm_id,
              surf_chk := false } :: rest)

/-- The member function `NextDemoSiPMBoard::Construct()`. The parameter `build`
stands for `Construct()`, `GetDimensions()` and `GetLogicalVolume()` of the sensor
classes. -/
def Construct (build : SiPMSettings → G4ThreeVector × G4LogicalVolume)
    (self : NextDemoSiPMBoard) : Except Failure (NextDemoSiPMBoard × BoardVolumes) := do
  let (sipm, sipm_z_dim, sipm_rot) := selectSiPM build self
  let self := { self with sipm_ := sipm }
  -- Mother volume and board configuration checks
  let mother_gas ← validate self
  -- Board-Wrapper volume that contains all other elements
  let board_name := "SIPM_BOARD"
  let board_size_x : G4double :=
    (self.num_columns_ : G4double) * self.sipm_pitch_ - 2 * self.side_reduction_
  let board_size_y : G4double :=
    (self.num_rows_ : G4double) * self.sipm_pitch_ - 2 * self.side_reduction_
  let board_size_z : G4double :=
    self.kapton_thickn_ + self.coating_thickn_ + max sipm_z_dim self.mask_thickn_
  let self := { self with board_size_ := ⟨board_size_x, board_size_y, board_size_z⟩ }
  let board_solid := G4VSolid.G4Box board_name (board_size_x / 2) (board_size_y / 2)
    (board_size_z / 2)
  let board_logic : G4LogicalVolume :=
    { solid := some board_solid, material := mother_gas, name := board_name }
  let self := { self with logical_volume_ := some board_logic }
  -- Kapton
  let kapton_name := "KAPTON_BOARD"
  let kapton_posz : G4double := -board_size_z / 2 + self.kapton_thickn_ / 2
  let kapton_solid := G4VSolid.G4Box kapton_name (board_size_x / 2) (board_size_y / 2)
    (self.kapton_thickn_ / 2)
  let kapton_logic : G4LogicalVolume :=
    { solid := some kapton_solid, material := ⟨.nist "G4_KAPTON", none⟩, name := kapton_name }
  let kapton_phys : G4PVPlacement :=
    { rot := none, tlate := ⟨0, 0, kapton_posz⟩, logical := kapton_logic, name := kapton_name,
      mother := board_logic, many := false, copy_no := 0, surf_chk := true }
  -- Teflon masks
  let mask_name := "BOARD_MASK"
  let mask_posz : G4double := -board_size_z / 2 + self.kapton_thickn_ + self.mask_thickn_ / 2
  let mask_solid := G4VSolid.G4Box mask_name (board_size_x / 2) (board_size_y / 2)
    (self.mask_thickn_ / 2)
  let mask_logic : G4LogicalVolume :=
    { solid := some mask_solid, material := ⟨.nist "G4_TEFLON", none⟩, name := mask_name }
  let mask_phys : G4PVPlacement :=
    { rot := none, tlate := ⟨0, 0, mask_posz⟩, logical := mask_logic, name := mask_name,
      mother := board_logic, many := false, copy_no := 0, surf_chk := true }
  -- Mask holes
  let hole_name := "BOARD_MASK_HOLE"
  let hole_solid : Option G4VSolid :=
    if self.hole_type_ = "rounded" then
      some (.G4Tubs hole_name 0 (self.hole_diam_ / 2) (self.mask_thickn_ / 2) 0 360)
    else if self.hole_type_ = "rectangular" then
      some (.G4Box hole_name (self.hole_x_ / 2) (self.hole_y_ / 2) (self.mask_thickn_ / 2))
    else none
  let hole_logic : G4LogicalVolume :=
    { solid := hole_solid, material := mother_gas, name := hole_name }
  -- Generate SiPM positions
  let self := GenerateSiPMPositions self
  let sipm_posz : G4double := -self.mask_thickn_ / 2 + sipm_z_dim / 2
  let sipm_obj ← match self.sipm_ with
    | none => .error (.UndefinedBehaviour "sipm_ does not point to a sensor")
    | some s => pure s
  let sipm_phys : G4PVPlacement :=
    { rot := some sipm_rot, tlate := ⟨0, 0, sipm_posz⟩, logical := sipm_obj.logical,
      name := sipm_obj.logical.name, mother := hole_logic, many := false, copy_no := 0,
      surf_chk := false }
  -- Membranes
  let membrane_phys : Option G4PVPlacement :=
    if self.membrane_thickn_ > 0 then
      let membrane_name := "BOARD_MASK_MEMB"
      let membrane_posz : G4double := self.mask_thickn_ / 2 - self.membrane_thickn_ / 2
      let membrane_solid := G4VSolid.G4Tubs membrane_name 0 (self.hole_diam_ / 2)
        (self.membrane_thickn_ / 2) 0 360
      let membrane_logic : G4LogicalVolume :=
        { solid := some membrane_solid, material := mother_gas, name := membrane_name }
      some { rot := none, tlate := ⟨0, 0, membrane_posz⟩, logical := membrane_logic,
             name := membrane_name, mother := hole_logic, many := false, copy_no := 0,
             surf_chk := true }
    else none
  -- Placing the holes with SiPMs and membranes inside
  let hole_phys ← placeHoles self.sipm_positions_ hole_logic mask_logic hole_name
    self.num_sipms_ 0
  -- Coating
  let coating_phys : Option G4PVPlacement :=
    if self.coating_thickn_ > 0 then
      let coating_name := "BOARD_COATING"
      let coating_posz : G4double := board_size_z / 2 - self.coating_thickn_ / 2
      let coating_solid := G4VSolid.G4Box coating_name (board_size_x / 2) (board_size_y / 2)
        (self.coating_thickn_ / 2)
      let tpb : G4Material := (G4Material.mk .TPB none).SetMaterialPropertiesTable .TPB
      let coating_logic : G4LogicalVolume :=
        { solid := some coating_solid, material := tpb, name := coating_name }
      some { rot := none, tlate := ⟨0, 0, coating_posz⟩, logical := coating_logic,
             name := coating_name, mother := board_logic, many := false, copy_no := 0,
             surf_chk := true }
    else none
  -- Vertex generator
  let kapton_gen : BoxPointSampler :=
    { inner_x := board_size_x, inner_y := board_size_y, inner_z := self.kapton_thickn_,
      thickness := 0, origin := ⟨0, 0, -board_size_z / 2 + self.kapton_thickn_ / 2⟩,
      rotation := none }
  let self := { self with kapton_gen_ := some kapton_gen }
  pure (self,
    { board_logic := board_logic, kapton_phys := kapton_phys, mask_phys := mask_phys,
      hole_logic := hole_logic, sipm_phys := sipm_phys, membrane_phys := membrane_phys,
      hole_phys := hole_phys, coating_phys := coating_phys })

/-- The member function `NextDemoSiPMBoard::GenerateVertex(const G4String&)`: the
region argument has no name and is not read. The parameter `sample` stands for
`BoxPointSampler::GenerateVertex`. -/
def GenerateVertex (sample : BoxPointSampler → String → Except Failure G4ThreeVector)
    (self : NextDemoSiPMBoard) (_region : String) : Except Failure G4ThreeVector :=
  match self.kapton_gen_ with
  | none => .error (.UndefinedBehaviour "kapton_gen_ is a nullptr")
  | some gen => sample gen "INSIDE"

end NextDemoSiPMBoard

/-! ## `Next100OpticalGeometry` -/

/-- Values handed to `Next100InnerElements` through its setters. -/
structure Next100InnerElements where
  logical_volume_ : Option G4LogicalVolume
  physical_volume_ : Option G4PVPlacement
  el_z_coord_ : Option G4double
  el_to_sapphire_wdw_distance_ : Option G4double
  el_to_tp_distance_ : Option G4double
  constructed_ : Bool
deriving DecidableEq, Repr

/-- Data members of `Next100OpticalGeometry` (and the logical volume of `GeometryBase`). -/
structure Next100OpticalGeometry where
  gate_tracking_plane_distance_ : G4double
  gate_sapphire_wdw_distance_ : G4double
  pressure_ : G4double
  temperature_ : G4double
  sc_yield_ : G4double
  e_lifetime_ : G4double
  specific_vertex_ : G4ThreeVector
  gas_ : String
  gate_zpos_in_gas_ : G4double
  inner_elements_ : Next100InnerElements
  logical_volume_ : Option G4LogicalVolume
deriving DecidableEq, Repr

/-- The volume tree built by one run of `Next100OpticalGeometry::Construct()`. -/
structure OpticalVolumes where
  lab_logic : G4LogicalVolume
  gas_logic : G4LogicalVolume
  gas_phys : G4PVPlacement
deriving DecidableEq, Repr

namespace Next100OpticalGeometry

/-- The constructor `Next100OpticalGeometry::Next100OpticalGeometry()`. The CLHEP
value of `bar` is a parameter, and so is the value that the member
`gate_zpos_in_gas_`, which has no initialiser, happens to hold. -/
def new (bar gate_zpos_in_gas : G4double) : Next100OpticalGeometry :=
  { gate_tracking_plane_distance_ := (261 / 10 + 1 / 10) * mm
    gate_sapphire_wdw_distance_ := (14582 / 10 - 1 / 10) * mm
    pressure_ := 15 * bar
    temperature_ := 300 * kelvin
    sc_yield_ := 25510 * 1 / MeV
    e_lifetime_ := 1000 * ms
    specific_vertex_ := ⟨0, 0, 0⟩
    gas_ := "naturalXe"
    gate_zpos_in_gas_ := gate_zpos_in_gas
    inner_elements_ :=
      { logical_volume_ := none, physical_volume_ := none, el_z_coord_ := none,
        el_to_sapphire_wdw_distance_ := none, el_to_tp_distance_ := none,
        constructed_ := false }
    logical_volume_ := none }

/-- Lines 105-128 of `Construct()`: the gas material is chosen by the string `gas_`. -/
def selectGas (self : Next100OpticalGeometry) : Except Failure G4Material :=
  let props := MaterialPropertiesTable.GXe self.pressure_ self.temperature_ self.sc_yield_
    self.e_lifetime_
  if self.gas_ = "naturalXe" then
    pure ((G4Material.mk (.GXe self.pressure_ self.temperature_) none).SetMaterialPropertiesTable
      props)
  else if self.gas_ = "enrichedXe" then
    pure ((G4Material.mk (.GXeEnriched self.pressure_ self.temperature_)
      none).SetMaterialPropertiesTable props)
  else if self.gas_ = "depletedXe" then
    pure ((G4Material.mk (.GXeDepleted self.pressure_ self.temperature_)
      none).SetMaterialPropertiesTable props)
  else
    G4Exception "[Next100OpticalGeometry]" "Construct()"
      "Unknown kind of gas, valid options are: naturalXe, enrichedXe, depletedXe."

/-- The member function `Next100OpticalGeometry::Construct()`. The construction of
the inner elements themselves is outside these files; only the values passed to
them are kept. -/
def Construct (self : Next100OpticalGeometry) :
    Except Failure (Next100OpticalGeometry × OpticalVolumes) := do
  let air : G4Material := ⟨.nist "G4_AIR", none⟩
  let lab_size : G4double := 4 * m
  let lab_solid := G4VSolid.G4Box "LAB" (lab_size / 2) (lab_size / 2) (lab_size / 2)
  let lab_logic : G4LogicalVolume := { solid := some lab_solid, material := air, name := "LAB" }
  let self := { self with logical_volume_ := some lab_logic }
  -- Mother volume: a big box of gas which hosts the optical geometry
  let gas_mat ← selectGas self
  let gas_size : G4double := lab_size - 1 * cm
  let gas_solid := G4VSolid.G4Box "GAS" (gas_size / 2) (gas_size / 2) (gas_size / 2)
  let gas_logic : G4LogicalVolume := { solid := some gas_solid, material := gas_mat, name := "GAS" }
  let self := { self with gate_zpos_in_gas_ := 0 * mm }
  let gas_phys : G4PVPlacement :=
    { rot := none, tlate := ⟨0, 0, -self.gate_zpos_in_gas_⟩, logical := gas_logic, name := "GAS",
      mother := lab_logic, many := false, copy_no := 0, surf_chk := false }
  -- Inner elements
  let inner : Next100InnerElements :=
    { logical_volume_ := some gas_logic
      physical_volume_ := some gas_phys
      el_z_coord_ := some self.gate_zpos_in_gas_
      el_to_sapphire_wdw_distance_ := some self.gate_sapphire_wdw_distance_
      el_to_tp_distance_ := some self.gate_tracking_plane_distance_
      constructed_ := true }
  let self := { self with inner_elements_ := inner }
  pure (self, { lab_logic := lab_logic, gas_logic := gas_logic, gas_phys := gas_phys })

/-- The member function `Next100OpticalGeometry::GenerateVertex(region)`. The
parameter `inner` stands for `Next100InnerElements::GenerateVertex`. -/
def GenerateVertex (inner : Next100InnerElements → String → Except Failure G4ThreeVector)
    (self : Next100OpticalGeometry) (region : String) : Except Failure G4ThreeVector := do
  if region = "AD_HOC" then
    -- AD_HOC does not need to be shifted because it is passed by the user
    pure self.specific_vertex_
  else
    let vertex ← inner self.inner_elements_ region
    let displacement : G4ThreeVector := ⟨0, 0, -self.gate_zpos_in_gas_⟩
    pure (vertex + displacement)

end Next100OpticalGeometry

/-! ## Binary64 arithmetic

The source computes in IEEE 754 binary64. A finite double is a rational number, and
an arithmetic operation of the source is the exact operation followed by rounding to
the nearest double, ties to even. The exponent range is bounded below (subnormal
numbers are on the grid of `2 ^ (-1074)`) and not above: overflow to infinity is not
modelled, and every statement that rests on rounding bounds its inputs.
Each operation is rounded on its own (no fused multiply-add). Conversions of the
loop counters and of `num_columns_`, `num_rows_` to double are exact. -/

/-- Round a rational to the nearest integer, ties to the even one. -/
def roundHalfEven (q : ℚ) : ℤ :=
  if q - ⌊q⌋ < 1 / 2 then ⌊q⌋
  else if 1 / 2 < q - ⌊q⌋ then ⌊q⌋ + 1
  else if ⌊q⌋ % 2 = 0 then ⌊q⌋ else ⌊q⌋ + 1

/-- Exponent of the binade of `x` in binary64: the floor of the binary logarithm of
`|x|`, and `-1022` for subnormal numbers. -/
def binary64Exponent (x : ℚ) : ℤ := max (Int.log 2 |x|) (-1022)

/-- Rounding of a rational to the nearest binary64 number, ties to even: the
significand has 53 bits, so the spacing in the binade of exponent `e` is
`2 ^ (e - 52)`. -/
def binary64 (x : ℚ) : ℚ :=
  (roundHalfEven (x / 2 ^ (binary64Exponent x - 52)) : ℚ) * 2 ^ (binary64Exponent x - 52)

namespace NextDemoSiPMBoard

/-- The constructor `NextDemoSiPMBoard::NextDemoSiPMBoard()` with every decimal
literal and every product rounded by `rnd`. -/
def newWith (rnd : ℚ → ℚ) : NextDemoSiPMBoard :=
  { verbosity_ := false
    sipm_verbosity_ := false
    visibility_ := false
    sipm_visibility_ := true
    sipm_coating_ := false
    time_binning_ := rnd (1 * microsecond)
    num_columns_ := 8
    num_rows_ := 8
    num_sipms_ := 8 * 8
    sipm_pitch_ := rnd (10 * mm)
    side_reduction_ := rnd (rnd (1 / 2) * mm)
    kapton_thickn_ := rnd (rnd (3 / 10) * mm)
    mask_thickn_ := rnd (2 * mm)
    membrane_thickn_ := 0
    coating_thickn_ := 0
    hole_type_ := ""
    hole_diam_ := rnd (rnd (7 / 2) * mm)
    hole_x_ := rnd (0 * mm)
    hole_y_ := rnd (0 * mm)
    sipm_type_ := ""
    mother_phys_ := none
    kapton_gen_ := none
    sipm_ := none
    board_size_ := ⟨0, 0, 0⟩
    sipm_positions_ := []
    logical_volume_ := none }

/-- The body of `NextDemoSiPMBoard::GenerateSiPMPositions()` with the result of every
arithmetic operation rounded by `rnd`, in the order of evaluation of the source:
`margin = sipm_pitch_/2. - side_reduction_`,
`sipm_posy = -board_size_.y()/2. + margin + i * sipm_pitch_`,
`sipm_posx = +board_size_.x()/2. - margin - j * sipm_pitch_`. -/
def GenerateSiPMPositionsWith (rnd : ℚ → ℚ) (self : NextDemoSiPMBoard) : NextDemoSiPMBoard :=
  let margin : G4double := rnd (rnd (self.sipm_pitch_ / 2) - self.side_reduction_)
  (List.range 8).foldl (fun s i =>
    let sipm_posy : G4double :=
      rnd (rnd (rnd (-s.board_size_.y / 2) + margin) + rnd ((i : G4double) * s.sipm_pitch_))
    (List.range 8).foldl (fun t j =>
      let sipm_posx : G4double :=
        rnd (rnd (rnd (t.board_size_.x / 2) - margin) - rnd ((j : G4double) * t.sipm_pitch_))
      { t with sipm_positions_ := t.sipm_positions_ ++ [⟨sipm_posx, sipm_posy, 0⟩] }) s) self

/-- The member function `NextDemoSiPMBoard::Construct()` with the result of every
arithmetic operation rounded by `rnd`, in the order of evaluation of the source.
With `rnd = binary64` this is the arithmetic of the compiled code; with the identity
it is `Construct`. -/
def ConstructWith (rnd : ℚ → ℚ) (build : SiPMSettings → G4ThreeVector × G4LogicalVolume)
    (self : NextDemoSiPMBoard) : Except Failure (NextDemoSiPMBoard × BoardVolumes) := do
  let (sipm, sipm_z_dim, sipm_rot) := selectSiPM build self
  let self := { self with sipm_ := sipm }
  -- Mother volume and board configuration checks
  let mother_gas ← validate self
  -- Board-Wrapper volume that contains all other elements
  let board_name := "SIPM_BOARD"
  let board_size_x : G4double :=
    rnd (rnd ((self.num_columns_ : G4double) * self.sipm_pitch_) - rnd (2 * self.side_reduction_))
  let board_size_y : G4double :=
    rnd (rnd ((self.num_rows_ : G4double) * self.sipm_pitch_) - rnd (2 * self.side_reduction_))
  let board_size_z : G4double :=
    rnd (rnd (self.kapton_thickn_ + self.coating_thickn_) + max sipm_z_dim self.mask_thickn_)
  let self := { self with board_size_ := ⟨board_size_x, board_size_y, board_size_z⟩ }
  let board_solid := G4VSolid.G4Box board_name (rnd (board_size_x / 2)) (rnd (board_size_y / 2))
    (rnd (board_size_z / 2))
  let board_logic : G4LogicalVolume :=
    { solid := some board_solid, material := mother_gas, name := board_name }
  let self := { self with logical_volume_ := some board_logic }
  -- Kapton
  let kapton_name := "KAPTON_BOARD"
  let kapton_posz : G4double := rnd (rnd (-board_size_z / 2) + rnd (self.kapton_thickn_ / 2))
  let kapton_solid := G4VSolid.G4Box kapton_name (rnd (board_size_x / 2))
    (rnd (board_size_y / 2)) (rnd (self.kapton_thickn_ / 2))
  let kapton_logic : G4LogicalVolume :=
    { solid := some kapton_solid, material := ⟨.nist "G4_KAPTON", none⟩, name := kapton_name }
  let kapton_phys : G4PVPlacement :=
    { rot := none, tlate := ⟨0, 0, kapton_posz⟩, logical := kapton_logic, name := kapton_name,
      mother := board_logic, many := false, copy_no := 0, surf_chk := true }
  -- Teflon masks
  let mask_name := "BOARD_MASK"
  let mask_posz : G4double :=
    rnd (rnd (rnd (-board_size_z / 2) + self.kapton_thickn_) + rnd (self.mask_thickn_ / 2))
  let mask_solid := G4VSolid.G4Box mask_name (rnd (board_size_x / 2)) (rnd (board_size_y / 2))
    (rnd (self.mask_thickn_ / 2))
  let mask_logic : G4LogicalVolume :=
    { solid := some mask_solid, material := ⟨.nist "G4_TEFLON", none⟩, name := mask_name }
  let mask_phys : G4PVPlacement :=
    { rot := none, tlate := ⟨0, 0, mask_posz⟩, logical := mask_logic, name := mask_name,
      mother := board_logic, many := false, copy_no := 0, surf_chk := true }
  -- Mask holes
  let hole_name := "BOARD_MASK_HOLE"
  let hole_solid : Option G4VSolid :=
    if self.hole_type_ = "rounded" then
      some (.G4Tubs hole_name 0 (rnd (self.hole_diam_ / 2)) (rnd (self.mask_thickn_ / 2)) 0 360)
    else if self.hole_type_ = "rectangular" then
      some (.G4Box hole_name (rnd (self.hole_x_ / 2)) (rnd (self.hole_y_ / 2))
        (rnd (self.mask_thickn_ / 2)))
    else none
  let hole_logic : G4LogicalVolume :=
    { solid := hole_solid, material := mother_gas, name := hole_name }
  -- Generate SiPM positions
  let self := GenerateSiPMPositionsWith rnd self
  let sipm_posz : G4double := rnd (rnd (-self.mask_thickn_ / 2) + rnd (sipm_z_dim / 2))
  let sipm_obj ← match self.sipm_ with
    | none => .error (.UndefinedBehaviour "sipm_ does not point to a sensor")
    | some s => pure s
  let sipm_phys : G4PVPlacement :=
    { rot := some sipm_rot, tlate := ⟨0, 0, sipm_posz⟩, logical := sipm_obj.logical,
      name := sipm_obj.logical.name, mother := hole_logic, many := false, copy_no := 0,
      surf_chk := false }
  -- Membranes
  let membrane_phys : Option G4PVPlacement :=
    if self.membrane_thickn_ > 0 then
      let membrane_name := "BOARD_MASK_MEMB"
      let membrane_posz : G4double :=
        rnd (rnd (self.mask_thickn_ / 2) - rnd (self.membrane_thickn_ / 2))
      let membrane_solid := G4VSolid.G4Tubs membrane_name 0 (rnd (self.hole_diam_ / 2))
        (rnd (self.membrane_thickn_ / 2)) 0 360
      let membrane_logic : G4LogicalVolume :=
        { solid := some membrane_solid, material := mother_gas, name := membrane_name }
      some { rot := none, tlate := ⟨0, 0, membrane_posz⟩, logical := membrane_logic,
             name := membrane_name, mother := hole_logic, many := false, copy_no := 0,
             surf_chk := true }
    else none
  -- Placing the holes with SiPMs and membranes inside
  let hole_phys ← placeHoles self.sipm_positions_ hole_logic mask_logic hole_name
    self.num_sipms_ 0
  -- Coating
  let coating_phys : Option G4PVPlacement :=
    if self.coating_thickn_ > 0 then
      let coating_name := "BOARD_COATING"
      let coating_posz : G4double :=
        rnd (rnd (board_size_z / 2) - rnd (self.coating_thickn_ / 2))
      let coating_solid := G4VSolid.G4Box coating_name (rnd (board_size_x / 2))
        (rnd (board_size_y / 2)) (rnd (self.coating_thickn_ / 2))
      let tpb : G4Material := (G4Material.mk .TPB none).SetMaterialPropertiesTable .TPB
      let coating_logic : G4LogicalVolume :=
        { solid := some coating_solid, material := tpb, name := coating_name }
      some { rot := none, tlate := ⟨0, 0, coating_posz⟩, logical := coating_logic,
             name := coating_name, mother := board_logic, many := false, copy_no := 0,
             surf_chk := true }
    else none
  -- Vertex generator
  let kapton_gen : BoxPointSampler :=
    { inner_x := board_size_x, inner_y := board_size_y, inner_z := self.kapton_thickn_,
      thickness := 0,
      origin := ⟨0, 0, rnd (rnd (-board_size_z / 2) + rnd (self.kapton_thickn_ / 2))⟩,
      rotation := none }
  let self := { self with kapton_gen_ := some kapton_gen }
  pure (self,
    { board_logic := board_logic, kapton_phys := kapton_phys, mask_phys := mask_phys,
      hole_logic := hole_logic, sipm_phys := sipm_phys, membrane_phys := membrane_phys,
      hole_phys := hole_phys, coating_phys := coating_phys })

end NextDemoSiPMBoard

/-! ## Auxiliary definitions used in the statements -/

/-- The position pushed by iteration `(i, j)` of the two loops of
`GenerateSiPMPositions`, for a board whose x-y size is `(size_x, size_y)`. -/
def gridPoint (size_x size_y pitch side : G4double) (i j : Nat) : G4ThreeVector :=
  ⟨size_x / 2 - (pitch / 2 - side) - (j : G4double) * pitch,
   -size_y / 2 + (pitch / 2 - side) + (i : G4double) * pitch, 0⟩

/-- The 64 positions in the order in which they are pushed. -/
def grid (size_x size_y pitch side : G4double) : List G4ThreeVector :=
  (List.range 64).map (fun k => gridPoint size_x size_y pitch side (k / 8) (k % 8))

/-- The placement made by iteration `k` of the placement loop of `Construct()`. -/
def holeAt (positions : List G4ThreeVector) (hole_logic mask_logic : G4LogicalVolume)
    (hole_name : String) (k : Nat) : G4PVPlacement :=
  { rot := none, tlate := positions.getD k ⟨0, 0, 0⟩, logical := hole_logic, name := hole_name,
    mother := mask_logic, many := false, copy_no := k, surf_chk := false }

/-- The value of `board_size_` computed by `Construct()` for sensor thickness `sipm_z_dim`. -/
def boardSize (s : NextDemoSiPMBoard) (sipm_z_dim : G4double) : G4ThreeVector :=
  ⟨(s.num_columns_ : G4double) * s.sipm_pitch_ - 2 * s.side_reduction_,
   (s.num_rows_ : G4double) * s.sipm_pitch_ - 2 * s.side_reduction_,
   s.kapton_thickn_ + s.coating_thickn_ + max sipm_z_dim s.mask_thickn_⟩

/-- Half-length along z of a solid. -/
def G4VSolid.halfZ : G4VSolid → G4double
  | .G4Box _ _ _ hz => hz
  | .G4Tubs _ _ _ hz _ _ => hz

/-- Lower face of a placed volume along z, in the frame of its mother. -/
def G4PVPlacement.zmin (p : G4PVPlacement) : G4double :=
  p.tlate.z - (p.logical.solid.map G4VSolid.halfZ).getD 0

/-- Upper face of a placed volume along z, in the frame of its mother. -/
def G4PVPlacement.zmax (p : G4PVPlacement) : G4double :=
  p.tlate.z + (p.logical.solid.map G4VSolid.halfZ).getD 0

/-! ## Concrete inputs -/

/-- A xenon gas for the mother volume of the examples. -/
def gas0 : G4Material := ⟨.GXe 1 300, none⟩

/-- A mother physical volume filled with `gas0`. -/
def mother0 : G4VPhysicalVolume :=
  ⟨"GAS", ⟨some (.G4Box "GAS" 1000 1000 1000), gas0, "GAS"⟩⟩

/-- A sensor factory whose sensors measure 3 x 3 x 1.5 mm. -/
def build0 : SiPMSettings → G4ThreeVector × G4LogicalVolume :=
  fun _ => (⟨3, 3, 3 / 2⟩, ⟨some (.G4Box "SIPM" (3 / 2) (3 / 2) (3 / 4)), gas0, "SIPM"⟩)

/-- The constructor's board after `SetMotherPhysicalVolume(mother0)` and
`SetSiPMType("sensl")`; every other member keeps its default. -/
def board0 : NextDemoSiPMBoard :=
  { NextDemoSiPMBoard.new with mother_phys_ := some mother0, sipm_type_ := "sensl" }

/-- A box sampler that knows the single region `INSIDE`, for which it returns the
centre of the box, and raises a fatal error for every other region name. -/
def sampleInsideOnly (gen : BoxPointSampler) (region : String) : Except Failure G4ThreeVector :=
  if region = "INSIDE" then pure gen.origin
  else G4Exception "[BoxPointSampler]" "GenerateVertex()" "Unknown region"

/-- An inner-elements sampler that knows the single region `CENTER`. -/
def innerCenterOnly (_inner : Next100InnerElements) (region : String) :
    Except Failure G4ThreeVector :=
  if region = "CENTER" then pure ⟨1, 2, 3⟩
  else G4Exception "[Next100InnerElements]" "GenerateVertex()" "Unknown region"

/-! ## Auxiliary definitions for the rounded arithmetic -/

/-- The position pushed by iteration `(i, j)` of the two loops of
`GenerateSiPMPositionsWith`, for a board whose x-y size is `(size_x, size_y)`. -/
def gridPointWith (rnd : ℚ → ℚ) (size_x size_y pitch side : G4double) (i j : Nat) :
    G4ThreeVector :=
  ⟨rnd (rnd (rnd (size_x / 2) - rnd (rnd (pitch / 2) - side)) - rnd ((j : G4double) * pitch)),
   rnd (rnd (rnd (-size_y / 2) + rnd (rnd (pitch / 2) - side)) + rnd ((i : G4double) * pitch)),
   0⟩

/-- The 64 positions in the order in which `GenerateSiPMPositionsWith` pushes them. -/
def gridWith (rnd : ℚ → ℚ) (size_x size_y pitch side : G4double) : List G4ThreeVector :=
  (List.range 64).map (fun k => gridPointWith rnd size_x size_y pitch side (k / 8) (k % 8))

/-- The value of `board_size_` computed by `ConstructWith` for sensor thickness
`sipm_z_dim`. -/
def boardSizeWith (rnd : ℚ → ℚ) (s : NextDemoSiPMBoard) (sipm_z_dim : G4double) :
    G4ThreeVector :=
  ⟨rnd (rnd ((s.num_columns_ : G4double) * s.sipm_pitch_) - rnd (2 * s.side_reduction_)),
   rnd (rnd ((s.num_rows_ : G4double) * s.sipm_pitch_) - rnd (2 * s.side_reduction_)),
   rnd (rnd (s.kapton_thickn_ + s.coating_thickn_) + max sipm_z_dim s.mask_thickn_)⟩

/-- The constructor's board in binary64 after `SetMotherPhysicalVolume(mother0)`,
`SetSiPMType("sensl")` and `SetHoleType("rounded")`: kapton 0.3 mm, mask 2 mm, no
membrane, no coating. -/
def board64 : NextDemoSiPMBoard :=
  { NextDemoSiPMBoard.newWith binary64 with
    mother_phys_ := some mother0, sipm_type_ := "sensl", hole_type_ := "rounded" }

/-- The board `board64` after `SetMaskThickness(1. * mm)`: the sensors of `build0`,
1.5 mm thick, are thicker than the mask. -/
def boardThinMask64 : NextDemoSiPMBoard :=
  { board64 with mask_thickn_ := binary64 (1 * mm) }

/-- The board `board64` after `SetMembraneThickness(0.1 * mm)` and
`SetCoatingThickness(0.002 * mm)`. -/
def boardCoated64 : NextDemoSiPMBoard :=
  { board64 with membrane_thickn_ := binary64 (binary64 (1 / 10) * mm),
                 coating_thickn_ := binary64 (binary64 (2 / 1000) * mm) }

/-- The board `board64` with a pitch of 15.55 mm. -/
def boardPitch64 : NextDemoSiPMBoard :=
  { board64 with sipm_pitch_ := binary64 (binary64 (1555 / 100) * mm) }

/-- The board `boardPitch64` with a side reduction of `7.7749999999999968 mm`, the
largest double below half the pitch. -/
def boardPitchSide64 : NextDemoSiPMBoard :=
  { boardPitch64 with side_reduction_ := 4376935887850699 / 562949953421312 }

open NextDemoSiPMBoard

/-! ## Lemmas on the embedding -/

/-- The two loops of `GenerateSiPMPositions` append the 64 grid points and change
nothing else. -/
theorem GenerateSiPMPositions_eq (s : NextDemoSiPMBoard) :
    GenerateSiPMPositions s =
      { s with sipm_positions_ := (s.sipm_positions_ ++
          grid s.board_size_.x s.board_size_.y s.sipm_pitch_ s.side_reduction_) } := by
  simp [GenerateSiPMPositions, grid, gridPoint, List.range, List.range.loop, List.foldl]

/-- A placement loop that returns has read only valid indices and has made the
placements `holeAt` in order. -/
theorem placeHoles_ok (positions : List G4ThreeVector) (hl ml : G4LogicalVolume)
    (name : String) : ∀ (n id : Nat) (l : List G4PVPlacement),
      placeHoles positions hl ml name n id = .ok l →
        (n = 0 ∨ id + n ≤ positions.length) ∧
        l = (List.range' id n).map (holeAt positions hl ml name) := by
  intro n
  induction n with
  | zero => intro id l h; simp [placeHoles, pure, Except.pure] at h; simp [h]
  | succ n ih =>
    intro id l h
    rw [placeHoles] at h
    cases hp : positions[id]? with
    | none => simp [hp] at h
    | some pos =>
      simp only [hp] at h
      cases hr : placeHoles positions hl ml name n (id + 1) with
      | error f => simp [hr, bind, Except.bind] at h
      | ok rest =>
        simp only [hr, bind, Except.bind, pure, Except.pure, Except.ok.injEq] at h
        obtain ⟨hlen, hrest⟩ := ih (id + 1) rest hr
        have hid : id < positions.length := by
          by_contra hc
          rw [List.getElem?_eq_none (by omega)] at hp
          cases hp
        have hpos : pos = positions.getD id ⟨0, 0, 0⟩ := by
          rw [List.getElem?_eq_getElem hid] at hp
          simp [List.getD, List.getElem?_eq_getElem hid]
          exact (Option.some.inj hp).symm
        refine ⟨Or.inr ?_, ?_⟩
        · rcases hlen with h0 | hle
          · omega
          · omega
        · rw [← h, hrest, hpos]
          simp [List.range'_succ, holeAt]

/-- A placement loop whose indices are all in range returns. -/
theorem placeHoles_of_le (positions : List G4ThreeVector) (hl ml : G4LogicalVolume)
    (name : String) : ∀ (n id : Nat), id + n ≤ positions.length →
      placeHoles positions hl ml name n id =
        .ok ((List.range' id n).map (holeAt positions hl ml name)) := by
  intro n
  induction n with
  | zero => intro id _; simp [placeHoles, pure, Except.pure]
  | succ n ih =>
    intro id h
    have hid : id < positions.length := by omega
    have hget : positions[id]? = some (positions.getD id ⟨0, 0, 0⟩) := by
      simp [List.getD, List.getElem?_eq_getElem hid]
    rw [placeHoles]
    simp only [hget]
    rw [ih (id + 1) (by omega)]
    simp [bind, Except.bind, pure, Except.pure, List.range'_succ, holeAt]

/-- The checks of `validate` as a cascade of alternatives. -/
theorem validate_eq (s : NextDemoSiPMBoard) :
    validate s =
      match s.mother_phys_ with
      | none => .error (.FatalException "[NextDemoSiPMBoard]" "Construct()"
                  "Mother physical volume is a nullptr.")
      | some p =>
        if s.coating_thickn_ > 0 ∧ s.membrane_thickn_ = 0 then
          .error (.FatalException "[NextDemoSiPMBoard]" "Construct()" "Coating require membranes")
        else if s.membrane_thickn_ > 0 ∧ s.mask_thickn_ = 0 then
          .error (.FatalException "[NextDemoSiPMBoard]" "Construct()" "Membranes require masks")
        else if s.mask_thickn_ > 0 ∧ s.hole_diam_ = 0 then
          .error (.FatalException "[NextDemoSiPMBoard]" "Construct()" "Masks require holes")
        else .ok p.logical.material := by
  unfold validate
  cases hm : s.mother_phys_ with
  | none => simp [G4Exception, bind, Except.bind]
  | some p =>
    simp only [G4Exception, bind, Except.bind, pure, Except.pure]
    split_ifs <;> simp_all

/-- The only failure of the placement loop is an index out of range. -/
theorem placeHoles_error (positions : List G4ThreeVector) (hl ml : G4LogicalVolume)
    (name : String) : ∀ (n id : Nat) (f : Failure),
      placeHoles positions hl ml name n id = .error f →
        f = .UndefinedBehaviour "sipm_positions_ index out of range" := by
  intro n
  induction n with
  | zero => intro id f h; simp [placeHoles, pure, Except.pure] at h
  | succ n ih =>
    intro id f h
    rw [placeHoles] at h
    cases hp : positions[id]? with
    | none => simp only [hp] at h; cases h; rfl
    | some pos =>
      simp only [hp] at h
      cases hr : placeHoles positions hl ml name n (id + 1) with
      | error g =>
        simp only [hr, bind, Except.bind] at h
        injection h with h
        subst h
        exact ih (id + 1) _ hr
      | ok rest => simp [hr, bind, Except.bind, pure, Except.pure] at h

/-- The fatal errors of `Construct` are those of its validation step. -/
theorem Construct_error_fatal (build : SiPMSettings → G4ThreeVector × G4LogicalVolume)
    (s : NextDemoSiPMBoard) (o c d : String) :
    Construct build s = .error (.FatalException o c d) ↔
      validate s = .error (.FatalException o c d) := by
  unfold Construct
  simp only [bind, Except.bind, pure, Except.pure, GenerateSiPMPositions_eq]
  have hv : ∀ x : Option SiPM, validate { s with sipm_ := x } = validate s := fun _ => rfl
  rw [hv]
  cases hval : validate s with
  | error f => simp
  | ok gas =>
    simp only
    split
    · simp
    · split
      · rename_i hp
        have := placeHoles_error _ _ _ _ _ _ _ hp
        subst this
        simp
      · simp

/-- The members written by a run of `Construct` that returns. -/
theorem Construct_ok_state {build : SiPMSettings → G4ThreeVector × G4LogicalVolume}
    {s : NextDemoSiPMBoard} {r : NextDemoSiPMBoard × BoardVolumes}
    (h : Construct build s = .ok r) :
    (∃ gas, validate s = .ok gas) ∧ (∃ sipm, (selectSiPM build s).1 = some sipm) ∧
    r.1.board_size_ = boardSize s (selectSiPM build s).2.1 ∧
    r.1.sipm_positions_ = s.sipm_positions_ ++
      grid (boardSize s (selectSiPM build s).2.1).x (boardSize s (selectSiPM build s).2.1).y
        s.sipm_pitch_ s.side_reduction_ ∧
    r.1.kapton_gen_ = some
      { inner_x := (boardSize s (selectSiPM build s).2.1).x,
        inner_y := (boardSize s (selectSiPM build s).2.1).y,
        inner_z := s.kapton_thickn_, thickness := 0,
        origin := ⟨0, 0, -(boardSize s (selectSiPM build s).2.1).z / 2 + s.kapton_thickn_ / 2⟩,
        rotation := none } := by
  unfold Construct at h
  simp only [bind, Except.bind, pure, Except.pure, GenerateSiPMPositions_eq] at h
  split at h
  · cases h
  · split at h
    · cases h
    · split at h
      · cases h
      · cases h
        rename_i hv _ _ hs _ _ hp
        exact ⟨⟨_, hv⟩, ⟨_, hs⟩, by simp [boardSize], by simp [boardSize], by simp [boardSize]⟩

/-- The hole volume and its placements in a run of `Construct` that returns. -/
theorem Construct_ok_holes {build : SiPMSettings → G4ThreeVector × G4LogicalVolume}
    {s : NextDemoSiPMBoard} {r : NextDemoSiPMBoard × BoardVolumes}
    (h : Construct build s = .ok r) :
    r.2.hole_phys = (List.range' 0 s.num_sipms_).map
      (holeAt r.1.sipm_positions_ r.2.hole_logic r.2.mask_phys.logical "BOARD_MASK_HOLE") ∧
    (s.num_sipms_ = 0 ∨ s.num_sipms_ ≤ r.1.sipm_positions_.length) ∧
    r.2.hole_logic.solid =
      (if s.hole_type_ = "rounded" then
        some (.G4Tubs "BOARD_MASK_HOLE" 0 (s.hole_diam_ / 2) (s.mask_thickn_ / 2) 0 360)
      else if s.hole_type_ = "rectangular" then
        some (.G4Box "BOARD_MASK_HOLE" (s.hole_x_ / 2) (s.hole_y_ / 2) (s.mask_thickn_ / 2))
      else none) := by
  unfold Construct at h
  simp only [bind, Except.bind, pure, Except.pure, GenerateSiPMPositions_eq] at h
  split at h
  · cases h
  · split at h
    · cases h
    · split at h
      · cases h
      · cases h
        rename_i hv _ _ hs _ _ hp
        obtain ⟨hlen, hl⟩ := placeHoles_ok _ _ _ _ _ _ _ hp
        refine ⟨hl, ?_, rfl⟩
        simpa using hlen

/-- `Construct` returns on a valid configuration with a sensor and at most 64
placements to make. -/
theorem Construct_succeeds (build : SiPMSettings → G4ThreeVector × G4LogicalVolume)
    (s : NextDemoSiPMBoard) (gas : G4Material) (sipm : SiPM)
    (hv : validate s = .ok gas) (hs : (selectSiPM build s).1 = some sipm)
    (hn : s.num_sipms_ ≤ s.sipm_positions_.length + 64) :
    ∃ r, Construct build s = .ok r := by
  unfold Construct
  simp only [bind, Except.bind, pure, Except.pure, GenerateSiPMPositions_eq]
  have hv2 : ∀ x : Option SiPM, validate { s with sipm_ := x } = validate s := fun _ => rfl
  rw [hv2, hv]
  simp only [hs]
  rw [placeHoles_of_le]
  · exact ⟨_, rfl⟩
  · simp [grid]; omega

/-- The example board passes the checks. -/
theorem validate_board0 : validate board0 = .ok gas0 := by
  rw [validate_eq]
  simp [board0, NextDemoSiPMBoard.new, mother0, mm]

/-- The type `sensl` yields a sensor. -/
theorem selectSiPM_sensl (build : SiPMSettings → G4ThreeVector × G4LogicalVolume)
    (s : NextDemoSiPMBoard) (h : s.sipm_type_ = "sensl") :
    ∃ sipm, (selectSiPM build s).1 = some sipm := by
  simp [selectSiPM, h]

/-- `Construct` returns on the example board. -/
theorem Construct_board0 : ∃ r, Construct build0 board0 = .ok r := by
  obtain ⟨sipm, hs⟩ := selectSiPM_sensl build0 board0 rfl
  exact Construct_succeeds build0 board0 gas0 sipm validate_board0 hs (by decide)

/-- Claim C1: the validation step of `NextDemoSiPMBoard::Construct` raises a fatal
error if and only if the mother physical volume is null, or the coating is positive
with a zero membrane, or the membrane is positive with a zero mask, or the mask is
positive with a zero hole diameter; `Construct` as a whole raises a fatal error in
exactly the same cases; every failure of the validation is a fatal exception of
`[NextDemoSiPMBoard]`; and the board of the constructor, whose mother volume is not
set, fails with the message about the null mother volume, whatever the sensors are. -/
theorem C1_validation_fails_exactly_on_invalid
    (build : SiPMSettings → G4ThreeVector × G4LogicalVolume) (s : NextDemoSiPMBoard) :
    ((∃ o c d, validate s = .error (.FatalException o c d)) ↔
      (s.mother_phys_ = none ∨ (s.coating_thickn_ > 0 ∧ s.membrane_thickn_ = 0) ∨
       (s.membrane_thickn_ > 0 ∧ s.mask_thickn_ = 0) ∨
       (s.mask_thickn_ > 0 ∧ s.hole_diam_ = 0))) ∧
    ((∃ o c d, Construct build s = .error (.FatalException o c d)) ↔
      (s.mother_phys_ = none ∨ (s.coating_thickn_ > 0 ∧ s.membrane_thickn_ = 0) ∨
       (s.membrane_thickn_ > 0 ∧ s.mask_thickn_ = 0) ∨
       (s.mask_thickn_ > 0 ∧ s.hole_diam_ = 0))) ∧
    (∀ f, validate s = .error f → ∃ d, f = .FatalException "[NextDemoSiPMBoard]" "Construct()" d) ∧
    Construct build NextDemoSiPMBoard.new =
      .error (.FatalException "[NextDemoSiPMBoard]" "Construct()"
        "Mother physical volume is a nullptr.") := by
  have key : (∃ o c d, validate s = .error (.FatalException o c d)) ↔
      (s.mother_phys_ = none ∨ (s.coating_thickn_ > 0 ∧ s.membrane_thickn_ = 0) ∨
       (s.membrane_thickn_ > 0 ∧ s.mask_thickn_ = 0) ∨
       (s.mask_thickn_ > 0 ∧ s.hole_diam_ = 0)) := by
    rw [validate_eq]
    cases hm : s.mother_phys_ with
    | none => simp
    | some p =>
      simp only [false_or]
      split_ifs <;> simp_all
  refine ⟨key, ?_, ?_, ?_⟩
  · rw [← key]
    simp only [Construct_error_fatal]
  · intro f hf
    rw [validate_eq] at hf
    cases hm : s.mother_phys_ with
    | none => rw [hm] at hf; cases hf; exact ⟨_, rfl⟩
    | some p =>
      rw [hm] at hf
      simp only at hf
      split_ifs at hf <;> cases hf <;> exact ⟨_, rfl⟩
  · rw [Construct_error_fatal, validate_eq]
    rfl

/-- Claim C2, evaluated on the code: on the constructor's board with a mother volume
and the sensor type `sensl` (mask 2 mm, `hole_type_` left at its default `""`),
`Construct` returns normally; the hole logical volume has no solid and is placed
64 times. No fatal error is raised for the undefined hole shape. -/
theorem C2_default_hole_type_builds_hole_without_solid :
    ∃ r, Construct build0 board0 = .ok r ∧ board0.mask_thickn_ > 0 ∧
      board0.hole_type_ ≠ "rounded" ∧ board0.hole_type_ ≠ "rectangular" ∧
      r.2.hole_logic.solid = none ∧ r.2.hole_phys.length = 64 := by
  obtain ⟨r, hr⟩ := Construct_board0
  obtain ⟨hl, _, hsolid⟩ := Construct_ok_holes hr
  refine ⟨r, hr, ?_, ?_, ?_, ?_, ?_⟩
  · simp [board0, NextDemoSiPMBoard.new, mm]
  · simp [board0, NextDemoSiPMBoard.new]
  · simp [board0, NextDemoSiPMBoard.new]
  · rw [hsolid]; simp [board0, NextDemoSiPMBoard.new]
  · rw [hl]; simp [board0, NextDemoSiPMBoard.new]

/-- The gas selection fails exactly for a name outside the three known ones. -/
theorem selectGas_error_iff (s : Next100OpticalGeometry) :
    (∃ f, s.selectGas = .error f) ↔
      (s.gas_ ≠ "naturalXe" ∧ s.gas_ ≠ "enrichedXe" ∧ s.gas_ ≠ "depletedXe") := by
  unfold Next100OpticalGeometry.selectGas
  by_cases h1 : s.gas_ = "naturalXe"
  · simp [h1, pure, Except.pure]
  · by_cases h2 : s.gas_ = "enrichedXe"
    · simp [h2, pure, Except.pure]
    · by_cases h3 : s.gas_ = "depletedXe"
      · simp [h3, pure, Except.pure]
      · simp [h1, h2, h3, G4Exception]

/-- The only failure of the optical geometry is that of the gas selection. -/
theorem Next100_Construct_error (s : Next100OpticalGeometry) (f : Failure) :
    s.Construct = .error f ↔ s.selectGas = .error f := by
  unfold Next100OpticalGeometry.Construct
  have hsel : ∀ x : Option G4LogicalVolume,
      Next100OpticalGeometry.selectGas { s with logical_volume_ := x } = s.selectGas := fun _ => rfl
  simp only [bind, Except.bind, pure, Except.pure, hsel]
  cases s.selectGas <;> simp

/-- Values set by a run of `Next100OpticalGeometry::Construct` that returns. -/
theorem Next100_Construct_ok {s : Next100OpticalGeometry}
    {r : Next100OpticalGeometry × OpticalVolumes} (h : s.Construct = .ok r) :
    s.selectGas = .ok r.2.gas_logic.material ∧ r.1.gate_zpos_in_gas_ = 0 ∧
    r.1.specific_vertex_ = s.specific_vertex_ ∧ r.2.gas_phys.tlate = ⟨0, 0, 0⟩ ∧
    r.1.inner_elements_.el_z_coord_ = some 0 := by
  unfold Next100OpticalGeometry.Construct at h
  have hsel : ∀ x : Option G4LogicalVolume,
      Next100OpticalGeometry.selectGas { s with logical_volume_ := x } = s.selectGas := fun _ => rfl
  simp only [bind, Except.bind, pure, Except.pure, hsel] at h
  cases hg : s.selectGas with
  | error f => rw [hg] at h; cases h
  | ok gas =>
    rw [hg] at h
    cases h
    simp [mm]

/-- The default optical geometry is constructed without error. -/
theorem Next100_Construct_new (bar z0 : G4double) :
    ∃ r, (Next100OpticalGeometry.new bar z0).Construct = .ok r := by
  cases h : (Next100OpticalGeometry.new bar z0).Construct with
  | ok r => exact ⟨r, rfl⟩
  | error f =>
    have := (selectGas_error_iff _).1 ⟨f, (Next100_Construct_error _ f).1 h⟩
    simp [Next100OpticalGeometry.new] at this

/-- Claim C3: the gas selection of `Next100OpticalGeometry::Construct` raises a fatal
error if and only if `gas_` is none of `naturalXe`, `enrichedXe`, `depletedXe`
(string equality, so case-sensitive), and so does `Construct` as a whole; for each of
the three names the selected material is natural, enriched or depleted xenon built
from `pressure_` and `temperature_`, carrying the xenon optical properties; the
material becomes that of the gas volume; and the constructor's default
`gas_ = naturalXe` is constructed without error for every value of `bar`. -/
theorem C3_gas_selection_fails_exactly_on_unknown_gas (s : Next100OpticalGeometry) :
    ((∃ o c d, s.selectGas = .error (.FatalException o c d)) ↔
      (s.gas_ ≠ "naturalXe" ∧ s.gas_ ≠ "enrichedXe" ∧ s.gas_ ≠ "depletedXe")) ∧
    ((∃ o c d, s.Construct = .error (.FatalException o c d)) ↔
      (s.gas_ ≠ "naturalXe" ∧ s.gas_ ≠ "enrichedXe" ∧ s.gas_ ≠ "depletedXe")) ∧
    (s.gas_ = "naturalXe" → s.selectGas = .ok
      ⟨.GXe s.pressure_ s.temperature_,
       some (.GXe s.pressure_ s.temperature_ s.sc_yield_ s.e_lifetime_)⟩) ∧
    (s.gas_ = "enrichedXe" → s.selectGas = .ok
      ⟨.GXeEnriched s.pressure_ s.temperature_,
       some (.GXe s.pressure_ s.temperature_ s.sc_yield_ s.e_lifetime_)⟩) ∧
    (s.gas_ = "depletedXe" → s.selectGas = .ok
      ⟨.GXeDepleted s.pressure_ s.temperature_,
       some (.GXe s.pressure_ s.temperature_ s.sc_yield_ s.e_lifetime_)⟩) ∧
    (∀ r, s.Construct = .ok r → s.selectGas = .ok r.2.gas_logic.material) ∧
    (∀ bar z0 : G4double, ∃ r, (Next100OpticalGeometry.new bar z0).Construct = .ok r ∧
      r.2.gas_logic.material.kind = .GXe (15 * bar) (300 * kelvin)) := by
  have key : (∃ o c d, s.selectGas = .error (.FatalException o c d)) ↔
      (s.gas_ ≠ "naturalXe" ∧ s.gas_ ≠ "enrichedXe" ∧ s.gas_ ≠ "depletedXe") := by
    unfold Next100OpticalGeometry.selectGas
    by_cases h1 : s.gas_ = "naturalXe"
    · simp [h1, pure, Except.pure]
    · by_cases h2 : s.gas_ = "enrichedXe"
      · simp [h2, pure, Except.pure]
      · by_cases h3 : s.gas_ = "depletedXe"
        · simp [h3, pure, Except.pure]
        · simp [h1, h2, h3, G4Exception]
  refine ⟨key, ?_, ?_, ?_, ?_, ?_, ?_⟩
  · rw [← key]
    simp only [Next100_Construct_error]
  · intro h
    simp [Next100OpticalGeometry.selectGas, h, pure, Except.pure,
      G4Material.SetMaterialPropertiesTable]
  · intro h
    simp [Next100OpticalGeometry.selectGas, h, pure, Except.pure,
      G4Material.SetMaterialPropertiesTable]
  · intro h
    simp [Next100OpticalGeometry.selectGas, h, pure, Except.pure,
      G4Material.SetMaterialPropertiesTable]
  · intro r hr
    exact (Next100_Construct_ok hr).1
  · intro bar z0
    obtain ⟨r, hr⟩ := Next100_Construct_new bar z0
    refine ⟨r, hr, ?_⟩
    have h1 := (Next100_Construct_ok hr).1
    simp [Next100OpticalGeometry.selectGas, Next100OpticalGeometry.new, pure, Except.pure,
      G4Material.SetMaterialPropertiesTable] at h1
    rw [← h1]

/-- Claim C8: `Next100OpticalGeometry::GenerateVertex("AD_HOC")` returns exactly
`specific_vertex_`, for every `gate_zpos_in_gas_` and every sampler of the inner
elements; for any other region the result is the vertex of the inner elements
translated by `(0, 0, -gate_zpos_in_gas_)`; and after `Construct`, which sets
`gate_zpos_in_gas_` to 0, it is the vertex of the inner elements itself. -/
theorem C8_ad_hoc_vertex_is_unshifted
    (inner : Next100InnerElements → String → Except Failure G4ThreeVector)
    (s : Next100OpticalGeometry) (region : String) :
    s.GenerateVertex inner "AD_HOC" = .ok s.specific_vertex_ ∧
    (region ≠ "AD_HOC" → s.GenerateVertex inner region =
      (inner s.inner_elements_ region).map
        (fun v => v + (⟨0, 0, -s.gate_zpos_in_gas_⟩ : G4ThreeVector))) ∧
    (∀ r, s.Construct = .ok r → r.1.gate_zpos_in_gas_ = 0 ∧
      r.1.GenerateVertex inner "AD_HOC" = .ok s.specific_vertex_ ∧
      (region ≠ "AD_HOC" → r.1.GenerateVertex inner region = inner r.1.inner_elements_ region)) := by
  have hadhoc : ∀ t : Next100OpticalGeometry,
      t.GenerateVertex inner "AD_HOC" = .ok t.specific_vertex_ := by
    intro t
    simp [Next100OpticalGeometry.GenerateVertex, pure, Except.pure]
  have hother : ∀ t : Next100OpticalGeometry, region ≠ "AD_HOC" →
      t.GenerateVertex inner region =
        (inner t.inner_elements_ region).map
          (fun v => v + (⟨0, 0, -t.gate_zpos_in_gas_⟩ : G4ThreeVector)) := by
    intro t hne
    simp only [Next100OpticalGeometry.GenerateVertex, hne, if_false, bind, Except.bind, pure,
      Except.pure]
    cases inner t.inner_elements_ region <;> rfl
  refine ⟨hadhoc s, hother s, ?_⟩
  intro r hr
  obtain ⟨_, hz, hv, _, _⟩ := Next100_Construct_ok hr
  refine ⟨hz, ?_, ?_⟩
  · rw [hadhoc, hv]
  · intro hne
    rw [hother r.1 hne, hz]
    cases inner r.1.inner_elements_ region with
    | error f => rfl
    | ok v =>
      show Except.ok (v + (⟨0, 0, -0⟩ : G4ThreeVector)) = Except.ok v
      have hv0 : v + (⟨0, 0, -0⟩ : G4ThreeVector) = v := by
        show G4ThreeVector.add v ⟨0, 0, -0⟩ = v
        simp [G4ThreeVector.add]
      rw [hv0]

/-- Claim C8 on the default optical geometry with `bar = 100` and a stale
`gate_zpos_in_gas_ = 5`, for an inner sampler that knows the region `CENTER`:
`AD_HOC` gives the origin before and after `Construct`, `CENTER` is shifted by
`-5` in z before `Construct` and not at all after it. -/
theorem C8_ad_hoc_vertex_is_unshifted_witness :
    (Next100OpticalGeometry.new 100 5).GenerateVertex innerCenterOnly "AD_HOC" = .ok ⟨0, 0, 0⟩ ∧
    (Next100OpticalGeometry.new 100 5).GenerateVertex innerCenterOnly "CENTER" = .ok ⟨1, 2, -2⟩ ∧
    ∃ r, (Next100OpticalGeometry.new 100 5).Construct = .ok r ∧
      r.1.GenerateVertex innerCenterOnly "AD_HOC" = .ok ⟨0, 0, 0⟩ ∧
      r.1.GenerateVertex innerCenterOnly "CENTER" = .ok ⟨1, 2, 3⟩ := by
  obtain ⟨h1, h2, h3⟩ :=
    C8_ad_hoc_vertex_is_unshifted innerCenterOnly (Next100OpticalGeometry.new 100 5) "CENTER"
  obtain ⟨r, hr⟩ := Next100_Construct_new 100 5
  obtain ⟨_, h4, h5⟩ := h3 r hr
  refine ⟨h1, ?_, r, hr, h4, ?_⟩
  · rw [h2 (by decide)]
    show Except.ok (G4ThreeVector.add ⟨1, 2, 3⟩ ⟨0, 0, -5⟩) = Except.ok ⟨1, 2, -2⟩
    norm_num [G4ThreeVector.add]
  · rw [h5 (by decide)]
    rfl

/-- Sensor thickness on the example board. -/
theorem selectSiPM_build0_board0 : (selectSiPM build0 board0).2.1 = 3 / 2 := by
  simp [selectSiPM, board0, NextDemoSiPMBoard.new, build0]

/-- Claim C4, as amended: `NextDemoSiPMBoard::GenerateVertex(region)` does not read
its argument. After `Construct` the kapton sampler exists, and for every region
string the call returns what that sampler returns for its region `INSIDE`. -/
theorem C4_region_argument_is_ignored
    (build : SiPMSettings → G4ThreeVector × G4LogicalVolume)
    (sample : BoxPointSampler → String → Except Failure G4ThreeVector)
    (s : NextDemoSiPMBoard) (r : NextDemoSiPMBoard × BoardVolumes) (region : String)
    (h : Construct build s = .ok r) :
    ∃ gen, r.1.kapton_gen_ = some gen ∧
      GenerateVertex sample r.1 region = sample gen "INSIDE" := by
  obtain ⟨_, _, _, _, hg⟩ := Construct_ok_state h
  exact ⟨_, hg, by simp [GenerateVertex, hg]⟩

/-- The amended claim C4 on the example board, for the region name `KAPTON`. -/
theorem C4_region_argument_is_ignored_witness :
    ∃ r, Construct build0 board0 = .ok r ∧ ∃ gen, r.1.kapton_gen_ = some gen ∧
      GenerateVertex sampleInsideOnly r.1 "KAPTON" = sampleInsideOnly gen "INSIDE" := by
  obtain ⟨r, hr⟩ := Construct_board0
  exact ⟨r, hr, C4_region_argument_is_ignored build0 sampleInsideOnly board0 r "KAPTON" hr⟩

/-- Counterexample to claim C4: with a box sampler that rejects every region name
other than `INSIDE`, the constructed example board returns the point `(0, 0, -1)` for
the region name `NO_SUCH_REGION` instead of raising a fatal error. -/
theorem C4_unknown_region_returns_a_point :
    (∀ gen, ∃ f, sampleInsideOnly gen "NO_SUCH_REGION" = .error f) ∧
    ∃ r, Construct build0 board0 = .ok r ∧
      GenerateVertex sampleInsideOnly r.1 "NO_SUCH_REGION" = .ok ⟨0, 0, -1⟩ := by
  refine ⟨fun gen => ⟨_, by simp [sampleInsideOnly, G4Exception]; rfl⟩, ?_⟩
  obtain ⟨r, hr⟩ := Construct_board0
  obtain ⟨_, _, _, _, hg⟩ := Construct_ok_state hr
  refine ⟨r, hr, ?_⟩
  simp only [GenerateVertex, hg, sampleInsideOnly, if_true, pure, Except.pure,
    selectSiPM_build0_board0]
  simp [boardSize, board0, NextDemoSiPMBoard.new, mm]
  norm_num

/-- The grid has 64 points. -/
theorem grid_length (size_x size_y pitch side : G4double) :
    (grid size_x size_y pitch side).length = 64 := by
  simp [grid]

/-- Board size and positions after `Construct` on a board of 8 x 8 sensors: the grid
is appended to the positions stored before. -/
theorem Construct_ok_grid {build : SiPMSettings → G4ThreeVector × G4LogicalVolume}
    {s : NextDemoSiPMBoard} {r : NextDemoSiPMBoard × BoardVolumes}
    (hrows : s.num_rows_ = 8) (hcols : s.num_columns_ = 8)
    (h : Construct build s = .ok r) :
    r.1.board_size_.x = 8 * s.sipm_pitch_ - 2 * s.side_reduction_ ∧
    r.1.board_size_.y = 8 * s.sipm_pitch_ - 2 * s.side_reduction_ ∧
    r.1.sipm_positions_ = s.sipm_positions_ ++ grid (8 * s.sipm_pitch_ - 2 * s.side_reduction_)
      (8 * s.sipm_pitch_ - 2 * s.side_reduction_) s.sipm_pitch_ s.side_reduction_ := by
  obtain ⟨_, _, hb, hpos, _⟩ := Construct_ok_state h
  rw [hb, hpos]
  simp [boardSize, hrows, hcols]

/-- Both known sensor types yield a sensor. -/
theorem selectSiPM_known (build : SiPMSettings → G4ThreeVector × G4LogicalVolume)
    (s : NextDemoSiPMBoard) (h : s.sipm_type_ = "sensl" ∨ s.sipm_type_ = "next100") :
    ∃ sipm, (selectSiPM build s).1 = some sipm := by
  rcases h with h | h <;> simp [selectSiPM, h]

/-- Claim C9: on a board with the constructor's 8 rows, 8 columns and
`num_sipms_ = num_rows_ * num_columns_`, with no position stored yet, a valid
configuration and a known sensor type, `Construct` returns; `sipm_positions_` then
has exactly `num_sipms_ = 64` entries, every index `sipm_id < num_sipms_` read by the
placement loop is in range, and the board holds exactly 64 placements of the one hole
volume inside the mask, the placement of index `sipm_id` sitting at
`sipm_positions_[sipm_id]` with copy number `sipm_id`, so that the copy numbers are
0, 1, ..., 63 in order. -/
theorem C9_sixty_four_hole_placements_in_bounds
    (build : SiPMSettings → G4ThreeVector × G4LogicalVolume)
    (s : NextDemoSiPMBoard) (gas : G4Material)
    (hrows : s.num_rows_ = 8) (hcols : s.num_columns_ = 8)
    (hnum : s.num_sipms_ = s.num_rows_ * s.num_columns_) (hfresh : s.sipm_positions_ = [])
    (hvalid : validate s = .ok gas)
    (htype : s.sipm_type_ = "sensl" ∨ s.sipm_type_ = "next100") :
    ∃ r, Construct build s = .ok r ∧
      s.num_sipms_ = 64 ∧ r.1.sipm_positions_.length = 64 ∧ r.2.hole_phys.length = 64 ∧
      (∀ sipm_id, sipm_id < s.num_sipms_ → ∃ pos,
        r.1.sipm_positions_[sipm_id]? = some pos ∧
        r.2.hole_phys[sipm_id]? = some
          { rot := none, tlate := pos, logical := r.2.hole_logic, name := "BOARD_MASK_HOLE",
            mother := r.2.mask_phys.logical, many := false, copy_no := sipm_id,
            surf_chk := false }) ∧
      r.2.hole_phys.map (fun p => p.copy_no) = List.range 64 ∧
      (∀ p ∈ r.2.hole_phys, p.logical = r.2.hole_logic) := by
  have hn : s.num_sipms_ = 64 := by rw [hnum, hrows, hcols]
  obtain ⟨sipm, hs⟩ := selectSiPM_known build s htype
  obtain ⟨r, hr⟩ := Construct_succeeds build s gas sipm hvalid hs (by omega)
  obtain ⟨_, _, hpos⟩ := Construct_ok_grid hrows hcols hr
  rw [hfresh, List.nil_append] at hpos
  obtain ⟨hholes, _, _⟩ := Construct_ok_holes hr
  have hlen : r.1.sipm_positions_.length = 64 := by rw [hpos, grid_length]
  refine ⟨r, hr, hn, hlen, ?_, ?_, ?_, ?_⟩
  · rw [hholes, hn]; simp
  · intro sipm_id hid
    rw [hn] at hid
    have hlt : sipm_id < r.1.sipm_positions_.length := by omega
    refine ⟨r.1.sipm_positions_[sipm_id], List.getElem?_eq_getElem hlt, ?_⟩
    rw [hholes, hn]
    simp [List.getElem?_map, List.getElem?_range', hid, holeAt, List.getD,
      List.getElem?_eq_getElem hlt]
  · rw [hholes, hn]
    simp [List.map_map, Function.comp_def, holeAt, List.range_eq_range']
  · intro p hmem
    rw [hholes] at hmem
    simp only [List.mem_map] at hmem
    obtain ⟨k, _, rfl⟩ := hmem
    rfl

/-- Claim C9 on the example board. -/
theorem C9_sixty_four_hole_placements_in_bounds_witness :
    board0.num_rows_ = 8 ∧ board0.num_columns_ = 8 ∧
    board0.num_sipms_ = board0.num_rows_ * board0.num_columns_ ∧
    board0.sipm_positions_ = [] ∧ validate board0 = .ok gas0 ∧
    (board0.sipm_type_ = "sensl" ∨ board0.sipm_type_ = "next100") ∧
    (∃ r, Construct build0 board0 = .ok r ∧
      board0.num_sipms_ = 64 ∧ r.1.sipm_positions_.length = 64 ∧ r.2.hole_phys.length = 64 ∧
      (∀ sipm_id, sipm_id < board0.num_sipms_ → ∃ pos,
        r.1.sipm_positions_[sipm_id]? = some pos ∧
        r.2.hole_phys[sipm_id]? = some
          { rot := none, tlate := pos, logical := r.2.hole_logic, name := "BOARD_MASK_HOLE",
            mother := r.2.mask_phys.logical, many := false, copy_no := sipm_id,
            surf_chk := false }) ∧
      r.2.hole_phys.map (fun p => p.copy_no) = List.range 64 ∧
      (∀ p ∈ r.2.hole_phys, p.logical = r.2.hole_logic)) :=
  ⟨rfl, rfl, rfl, rfl, validate_board0, Or.inl rfl,
    C9_sixty_four_hole_placements_in_bounds build0 board0 gas0 rfl rfl rfl rfl validate_board0
      (Or.inl rfl)⟩

/-! ## Lemmas on binary64 rounding -/

theorem roundHalfEven_sub_le (q : ℚ) : |(roundHalfEven q : ℚ) - q| ≤ 1 / 2 := by
  have h1 : (⌊q⌋ : ℚ) ≤ q := Int.floor_le q
  have h2 : q < ⌊q⌋ + 1 := Int.lt_floor_add_one q
  unfold roundHalfEven
  split_ifs with ha hb hc
  · rw [abs_le]; constructor <;> linarith
  · rw [abs_le]; push_cast; constructor <;> linarith
  · rw [abs_le]; constructor <;> linarith
  · rw [abs_le]; push_cast; constructor <;> linarith

theorem roundHalfEven_eq_of_near (q : ℚ) (r : ℤ) (h : |q - r| < 1 / 2) :
    roundHalfEven q = r := by
  obtain ⟨h1, h2⟩ := abs_lt.1 h
  unfold roundHalfEven
  by_cases hr : (r : ℚ) ≤ q
  · have hf : ⌊q⌋ = r := by
      rw [Int.floor_eq_iff]
      constructor
      · exact hr
      · linarith
    rw [hf, if_pos (by linarith)]
  · push_neg at hr
    have hf : ⌊q⌋ = r - 1 := by
      rw [Int.floor_eq_iff]
      push_cast
      constructor <;> linarith
    rw [hf]
    push_cast
    rw [if_neg (by linarith), if_pos (by linarith)]
    ring

theorem roundHalfEven_intCast (z : ℤ) : roundHalfEven (z : ℚ) = z :=
  roundHalfEven_eq_of_near _ z (by simp)

theorem roundHalfEven_tie (f : ℤ) :
    roundHalfEven ((f : ℚ) + 1 / 2) = if f % 2 = 0 then f else f + 1 := by
  have hf : ⌊(f : ℚ) + 1 / 2⌋ = f := by
    rw [Int.floor_eq_iff]
    constructor <;> linarith
  unfold roundHalfEven
  rw [hf]
  have e : (f : ℚ) + 1 / 2 - f = 1 / 2 := by ring
  rw [e, if_neg (lt_irrefl _), if_neg (lt_irrefl _)]

theorem binary64Exponent_eq (x : ℚ) (k : ℤ) (hk : -1022 ≤ k) (hlo : (2 : ℚ) ^ k ≤ |x|)
    (hhi : |x| < (2 : ℚ) ^ (k + 1)) : binary64Exponent x = k := by
  have hpos : 0 < |x| := lt_of_lt_of_le (by positivity) hlo
  have h1 : k ≤ Int.log 2 |x| := by
    have := (Int.zpow_le_iff_le_log (b := 2) (by norm_num) hpos (x := k)).1
    exact this (by exact_mod_cast hlo)
  have h2 : Int.log 2 |x| < k + 1 := by
    have := (Int.lt_zpow_iff_log_lt (b := 2) (by norm_num) hpos (x := k + 1)).1
    exact this (by exact_mod_cast hhi)
  unfold binary64Exponent
  have : Int.log 2 |x| = k := by omega
  rw [this]
  exact max_eq_left hk

theorem binary64_eq_of_near (x : ℚ) (k r : ℤ) (hk : -1022 ≤ k) (hlo : (2 : ℚ) ^ k ≤ |x|)
    (hhi : |x| < (2 : ℚ) ^ (k + 1))
    (hnear : |x - r * (2 : ℚ) ^ (k - 52)| < (2 : ℚ) ^ (k - 53)) :
    binary64 x = r * (2 : ℚ) ^ (k - 52) := by
  have hE := binary64Exponent_eq x k hk hlo hhi
  unfold binary64
  rw [hE]
  have hu : (0 : ℚ) < 2 ^ (k - 52) := by positivity
  have hhalf : (2 : ℚ) ^ (k - 53) = 2 ^ (k - 52) / 2 := by
    have : k - 52 = (k - 53) + 1 := by ring
    rw [this, zpow_add_one₀ (by norm_num)]
    ring
  have : roundHalfEven (x / 2 ^ (k - 52)) = r := by
    apply roundHalfEven_eq_of_near
    have e : x / 2 ^ (k - 52) - r = (x - r * 2 ^ (k - 52)) / 2 ^ (k - 52) := by
      field_simp
      ring
    rw [e, abs_div, abs_of_pos hu, div_lt_iff₀ hu]
    rw [hhalf] at hnear
    linarith
  rw [this]

theorem binary64_zero : binary64 0 = 0 := by
  simp [binary64, roundHalfEven]

theorem binary64_sub_le_half_ulp (x : ℚ) :
    |binary64 x - x| ≤ (2 : ℚ) ^ (binary64Exponent x - 53) := by
  have hu : (0 : ℚ) < 2 ^ (binary64Exponent x - 52) := by positivity
  have hhalf : (2 : ℚ) ^ (binary64Exponent x - 53) = 2 ^ (binary64Exponent x - 52) / 2 := by
    have : binary64Exponent x - 52 = (binary64Exponent x - 53) + 1 := by ring
    rw [this, zpow_add_one₀ (by norm_num)]
    ring
  have e : binary64 x - x =
      ((roundHalfEven (x / 2 ^ (binary64Exponent x - 52)) : ℚ) -
        x / 2 ^ (binary64Exponent x - 52)) * 2 ^ (binary64Exponent x - 52) := by
    unfold binary64
    field_simp
  rw [e, abs_mul, abs_of_pos hu, hhalf]
  have := roundHalfEven_sub_le (x / 2 ^ (binary64Exponent x - 52))
  nlinarith

theorem binary64Exponent_le (x : ℚ) (K : ℤ) (hK : -1022 ≤ K) (hx0 : x ≠ 0)
    (hx : |x| ≤ (2 : ℚ) ^ K) : binary64Exponent x ≤ K := by
  have hpos : 0 < |x| := abs_pos.2 hx0
  have h2 : Int.log 2 |x| < K + 1 := by
    have := (Int.lt_zpow_iff_log_lt (b := 2) (by norm_num) hpos (x := K + 1)).1
    apply this
    have : (2 : ℚ) ^ K < 2 ^ (K + 1) := zpow_lt_zpow_right₀ (by norm_num) (by omega)
    exact_mod_cast lt_of_le_of_lt hx this
  unfold binary64Exponent
  exact max_le (by omega) hK

theorem binary64_abs_error (x : ℚ) (K : ℤ) (hK : -1022 ≤ K) (hx : |x| ≤ (2 : ℚ) ^ K) :
    |binary64 x - x| ≤ (2 : ℚ) ^ (K - 53) := by
  by_cases hx0 : x = 0
  · subst hx0
    rw [binary64_zero]
    simp
    positivity
  · have hE := binary64Exponent_le x K hK hx0 hx
    have h1 := binary64_sub_le_half_ulp x
    have h2 : (2 : ℚ) ^ (binary64Exponent x - 53) ≤ 2 ^ (K - 53) :=
      zpow_le_zpow_right₀ (by norm_num) (by omega)
    exact le_trans h1 h2

theorem binary64_int_mul_zpow (mant k : ℤ) (hm : |mant| < 2 ^ 53) (hk : -1074 ≤ k) :
    binary64 ((mant : ℚ) * 2 ^ k) = (mant : ℚ) * 2 ^ k := by
  by_cases hm0 : mant = 0
  · subst hm0
    simp [binary64_zero]
  · have hx0 : (mant : ℚ) * 2 ^ k ≠ 0 := by
      apply mul_ne_zero
      · exact_mod_cast hm0
      · positivity
    have hmq : |(mant : ℚ)| < 9007199254740992 := by
      have h2 : ((|mant| : ℤ) : ℚ) < ((2 ^ 53 : ℤ) : ℚ) := by exact_mod_cast hm
      rw [Int.cast_abs] at h2
      norm_num at h2
      exact h2
    have hE : binary64Exponent ((mant : ℚ) * 2 ^ k) ≤ k + 52 := by
      have hpos : 0 < |(mant : ℚ) * 2 ^ k| := abs_pos.2 hx0
      have h2 : Int.log 2 |(mant : ℚ) * 2 ^ k| < k + 53 := by
        have := (Int.lt_zpow_iff_log_lt (b := 2) (by norm_num) hpos (x := k + 53)).1
        apply this
        push_cast
        rw [abs_mul, abs_of_pos (by positivity : (0 : ℚ) < 2 ^ k)]
        have e : (2 : ℚ) ^ (k + 53) = 9007199254740992 * 2 ^ k := by
          rw [zpow_add₀ (by norm_num)]; norm_num; ring
        rw [e]
        have hk2 : (0 : ℚ) < 2 ^ k := by positivity
        nlinarith
      unfold binary64Exponent
      exact max_le (by omega) (by omega)
    obtain ⟨s, hs⟩ : ∃ s : ℕ, (s : ℤ) = k + 52 - binary64Exponent ((mant : ℚ) * 2 ^ k) :=
      ⟨(k + 52 - binary64Exponent ((mant : ℚ) * 2 ^ k)).toNat, Int.toNat_of_nonneg (by omega)⟩
    have hq : (mant : ℚ) * 2 ^ k / 2 ^ (binary64Exponent ((mant : ℚ) * 2 ^ k) - 52) =
        ((mant * 2 ^ s : ℤ) : ℚ) := by
      push_cast
      rw [mul_div_assoc, ← zpow_sub₀ (by norm_num : (2 : ℚ) ≠ 0)]
      have : k - (binary64Exponent ((mant : ℚ) * 2 ^ k) - 52) = (s : ℤ) := by omega
      rw [this, zpow_natCast]
    have hback : ((mant * 2 ^ s : ℤ) : ℚ) * 2 ^ (binary64Exponent ((mant : ℚ) * 2 ^ k) - 52) =
        (mant : ℚ) * 2 ^ k := by
      rw [← hq]
      field_simp
    unfold binary64
    rw [hq, roundHalfEven_intCast, hback]

theorem binary64_eq_of_near_pos (x : ℚ) (k r : ℤ) (hk : -1022 ≤ k) (hlo : (2 : ℚ) ^ k ≤ x)
    (hhi : x < (2 : ℚ) ^ (k + 1))
    (h1 : r * (2 : ℚ) ^ (k - 52) - (2 : ℚ) ^ (k - 53) < x)
    (h2 : x < r * (2 : ℚ) ^ (k - 52) + (2 : ℚ) ^ (k - 53)) :
    binary64 x = r * (2 : ℚ) ^ (k - 52) := by
  have hx : 0 < x := lt_of_lt_of_le (by positivity) hlo
  apply binary64_eq_of_near x k r hk
  · rw [abs_of_pos hx]; exact hlo
  · rw [abs_of_pos hx]; exact hhi
  · rw [abs_lt]; constructor <;> linarith

theorem binary64_eq_of_near_neg (x : ℚ) (k r : ℤ) (hk : -1022 ≤ k) (hlo : (2 : ℚ) ^ k ≤ -x)
    (hhi : -x < (2 : ℚ) ^ (k + 1))
    (h1 : r * (2 : ℚ) ^ (k - 52) - (2 : ℚ) ^ (k - 53) < x)
    (h2 : x < r * (2 : ℚ) ^ (k - 52) + (2 : ℚ) ^ (k - 53)) :
    binary64 x = r * (2 : ℚ) ^ (k - 52) := by
  have hx : x < 0 := by
    have : (0 : ℚ) < 2 ^ k := by positivity
    linarith
  apply binary64_eq_of_near x k r hk
  · rw [abs_of_neg hx]; exact hlo
  · rw [abs_of_neg hx]; exact hhi
  · rw [abs_lt]; constructor <;> linarith

theorem binary64_eq_of_tie (x : ℚ) (k f r : ℤ) (hk : -1022 ≤ k) (hlo : (2 : ℚ) ^ k ≤ |x|)
    (hhi : |x| < (2 : ℚ) ^ (k + 1))
    (hx : x = f * (2 : ℚ) ^ (k - 52) + (2 : ℚ) ^ (k - 53))
    (hr : r = if f % 2 = 0 then f else f + 1) :
    binary64 x = r * (2 : ℚ) ^ (k - 52) := by
  have hE := binary64Exponent_eq x k hk hlo hhi
  unfold binary64
  rw [hE]
  have hu : (0 : ℚ) < 2 ^ (k - 52) := by positivity
  have hhalf : (2 : ℚ) ^ (k - 53) = 2 ^ (k - 52) / 2 := by
    have : k - 52 = (k - 53) + 1 := by ring
    rw [this, zpow_add_one₀ (by norm_num)]
    ring
  have hq : x / 2 ^ (k - 52) = (f : ℚ) + 1 / 2 := by
    rw [hx, hhalf]
    field_simp
    ring
  rw [hq, roundHalfEven_tie, hr]

theorem binary64_eq_of_tie_pos (x : ℚ) (k f r : ℤ) (hk : -1022 ≤ k) (hlo : (2 : ℚ) ^ k ≤ x)
    (hhi : x < (2 : ℚ) ^ (k + 1))
    (hx : x = f * (2 : ℚ) ^ (k - 52) + (2 : ℚ) ^ (k - 53))
    (hr : r = if f % 2 = 0 then f else f + 1) :
    binary64 x = r * (2 : ℚ) ^ (k - 52) := by
  have h0 : 0 < x := lt_of_lt_of_le (by positivity) hlo
  apply binary64_eq_of_tie x k f r hk _ _ hx hr
  · rw [abs_of_pos h0]; exact hlo
  · rw [abs_of_pos h0]; exact hhi

theorem binary64_eq_of_tie_neg (x : ℚ) (k f r : ℤ) (hk : -1022 ≤ k) (hlo : (2 : ℚ) ^ k ≤ -x)
    (hhi : -x < (2 : ℚ) ^ (k + 1))
    (hx : x = f * (2 : ℚ) ^ (k - 52) + (2 : ℚ) ^ (k - 53))
    (hr : r = if f % 2 = 0 then f else f + 1) :
    binary64 x = r * (2 : ℚ) ^ (k - 52) := by
  have h0 : x < 0 := by
    have : (0 : ℚ) < 2 ^ k := by positivity
    linarith
  apply binary64_eq_of_tie x k f r hk _ _ hx hr
  · rw [abs_of_neg h0]; exact hlo
  · rw [abs_of_neg h0]; exact hhi

theorem roundHalfEven_nonneg (q : ℚ) (hq : 0 ≤ q) : 0 ≤ roundHalfEven q := by
  have hf : 0 ≤ ⌊q⌋ := Int.floor_nonneg.2 hq
  unfold roundHalfEven
  split_ifs <;> omega

theorem binary64_nonneg (x : ℚ) (hx : 0 ≤ x) : 0 ≤ binary64 x := by
  unfold binary64
  have hu : (0 : ℚ) < 2 ^ (binary64Exponent x - 52) := by positivity
  have hq : 0 ≤ x / 2 ^ (binary64Exponent x - 52) := div_nonneg hx hu.le
  have hr : (0 : ℚ) ≤ (roundHalfEven (x / 2 ^ (binary64Exponent x - 52)) : ℚ) := by
    exact_mod_cast roundHalfEven_nonneg _ hq
  exact mul_nonneg hr hu.le

/-- Every value of `binary64` is an integer of less than 53 bits times a power of two
not below `2 ^ (-1074)`. -/
theorem binary64_repr (x : ℚ) :
    ∃ mant k : ℤ, |mant| < 2 ^ 53 ∧ -1074 ≤ k ∧ binary64 x = (mant : ℚ) * 2 ^ k := by
  have hE : -1022 ≤ binary64Exponent x := le_max_right _ _
  have hL : Int.log 2 |x| ≤ binary64Exponent x := le_max_left _ _
  have hu : (0 : ℚ) < 2 ^ (binary64Exponent x - 52) := by positivity
  have hxlt : |x| < (2 : ℚ) ^ (binary64Exponent x + 1) := by
    have h1 : |x| < ((2 : ℕ) : ℚ) ^ (Int.log 2 |x| + 1) :=
      Int.lt_zpow_succ_log_self (by norm_num) |x|
    have h2 : ((2 : ℕ) : ℚ) ^ (Int.log 2 |x| + 1) ≤ (2 : ℚ) ^ (binary64Exponent x + 1) := by
      push_cast
      exact zpow_le_zpow_right₀ (by norm_num) (by omega)
    exact lt_of_lt_of_le h1 h2
  have hq : |x / 2 ^ (binary64Exponent x - 52)| < 9007199254740992 := by
    rw [abs_div, abs_of_pos hu, div_lt_iff₀ hu]
    have e : (2 : ℚ) ^ (binary64Exponent x + 1) =
        9007199254740992 * 2 ^ (binary64Exponent x - 52) := by
      have : binary64Exponent x + 1 = (binary64Exponent x - 52) + 53 := by ring
      rw [this, zpow_add₀ (by norm_num)]
      norm_num
      ring
    rw [← e]
    exact hxlt
  have hr := roundHalfEven_sub_le (x / 2 ^ (binary64Exponent x - 52))
  have hrq : |(roundHalfEven (x / 2 ^ (binary64Exponent x - 52)) : ℚ)| < 9007199254740993 := by
    have h3 := abs_sub_abs_le_abs_sub
      (roundHalfEven (x / 2 ^ (binary64Exponent x - 52)) : ℚ) (x / 2 ^ (binary64Exponent x - 52))
    linarith
  have hrz : |roundHalfEven (x / 2 ^ (binary64Exponent x - 52))| ≤ 2 ^ 53 := by
    have h4 : ((|roundHalfEven (x / 2 ^ (binary64Exponent x - 52))| : ℤ) : ℚ) <
        ((9007199254740993 : ℤ) : ℚ) := by
      rw [Int.cast_abs]
      exact_mod_cast hrq
    have h5 : |roundHalfEven (x / 2 ^ (binary64Exponent x - 52))| < 9007199254740993 := by
      exact_mod_cast h4
    norm_num
    omega
  by_cases hlt : |roundHalfEven (x / 2 ^ (binary64Exponent x - 52))| < 2 ^ 53
  · exact ⟨_, binary64Exponent x - 52, hlt, by omega, rfl⟩
  · have heq : |roundHalfEven (x / 2 ^ (binary64Exponent x - 52))| = 2 ^ 53 := by omega
    rcases abs_eq (by norm_num : (0 : ℤ) ≤ 2 ^ 53) |>.1 heq with hp | hn
    · refine ⟨1, binary64Exponent x + 1, by norm_num, by omega, ?_⟩
      unfold binary64
      rw [hp]
      have : binary64Exponent x + 1 = (binary64Exponent x - 52) + 53 := by ring
      rw [this, zpow_add₀ (by norm_num)]
      norm_num
      ring
    · refine ⟨-1, binary64Exponent x + 1, by norm_num, by omega, ?_⟩
      unfold binary64
      rw [hn]
      have : binary64Exponent x + 1 = (binary64Exponent x - 52) + 53 := by ring
      rw [this, zpow_add₀ (by norm_num)]
      norm_num
      ring

/-- Rounding a double again changes nothing. -/
theorem binary64_idem (x : ℚ) : binary64 (binary64 x) = binary64 x := by
  obtain ⟨mant, k, hm, hk, h⟩ := binary64_repr x
  rw [h]
  exact binary64_int_mul_zpow mant k hm hk

/-- Halving a double that is not below `2 ^ (-1021)` in magnitude is exact. -/
theorem binary64_half (y : ℚ) (hy : binary64 y = y) (hbig : (2 : ℚ) ^ (-1021 : ℤ) ≤ |y|) :
    binary64 (y / 2) = y / 2 := by
  obtain ⟨mant, k, hm, hk, h⟩ := binary64_repr y
  rw [hy] at h
  have hmq : |(mant : ℚ)| < 9007199254740992 := by
    have h2 : ((|mant| : ℤ) : ℚ) < ((2 ^ 53 : ℤ) : ℚ) := by exact_mod_cast hm
    rw [Int.cast_abs] at h2
    norm_num at h2
    exact h2
  have hk1 : -1074 < k := by
    by_contra hc
    have hk' : k = -1074 := by omega
    rw [h, hk', abs_mul, abs_of_pos (by positivity : (0 : ℚ) < 2 ^ (-1074 : ℤ))] at hbig
    have e : (2 : ℚ) ^ (-1021 : ℤ) = 9007199254740992 * 2 ^ (-1074 : ℤ) := by
      have : (-1021 : ℤ) = -1074 + 53 := by norm_num
      rw [this, zpow_add₀ (by norm_num)]
      norm_num
    rw [e] at hbig
    have hp : (0 : ℚ) < 2 ^ (-1074 : ℤ) := by positivity
    nlinarith
  have e2 : y / 2 = (mant : ℚ) * 2 ^ (k - 1) := by
    rw [h, zpow_sub_one₀ (by norm_num)]
    ring
  rw [e2]
  exact binary64_int_mul_zpow mant (k - 1) hm (by omega)

/-- For an argument of magnitude at most 4096 the rounding error is at most `2 ^ (-41)`. -/
theorem binary64_bounds (x : ℚ) (hlo : -4096 ≤ x) (hhi : x ≤ 4096) :
    x - 1 / 2199023255552 ≤ binary64 x ∧ binary64 x ≤ x + 1 / 2199023255552 := by
  have h := binary64_abs_error x 12 (by norm_num) (by rw [abs_le]; norm_num; exact ⟨hlo, hhi⟩)
  norm_num at h
  rw [abs_le] at h
  constructor <;> linarith [h.1, h.2]

/-! ## Lemmas on the rounded embedding -/

/-- With the identity as rounding, `ConstructWith` is `Construct`. -/
theorem ConstructWith_id (build : SiPMSettings → G4ThreeVector × G4LogicalVolume)
    (s : NextDemoSiPMBoard) : ConstructWith id build s = Construct build s := rfl

/-- With the identity as rounding, `newWith` is the constructor `new`. -/
theorem newWith_id : newWith id = NextDemoSiPMBoard.new := rfl

/-- The two loops of `GenerateSiPMPositionsWith` append the 64 grid points and change
nothing else. -/
theorem GenerateSiPMPositionsWith_eq (rnd : ℚ → ℚ) (s : NextDemoSiPMBoard) :
    GenerateSiPMPositionsWith rnd s =
      { s with sipm_positions_ := (s.sipm_positions_ ++
          gridWith rnd s.board_size_.x s.board_size_.y s.sipm_pitch_ s.side_reduction_) } := by
  simp [GenerateSiPMPositionsWith, gridWith, gridPointWith, List.range, List.range.loop,
    List.foldl]

/-- The members written by a run of `ConstructWith` that returns. -/
theorem ConstructWith_ok_state {rnd : ℚ → ℚ}
    {build : SiPMSettings → G4ThreeVector × G4LogicalVolume}
    {s : NextDemoSiPMBoard} {r : NextDemoSiPMBoard × BoardVolumes}
    (h : ConstructWith rnd build s = .ok r) :
    (∃ gas, validate s = .ok gas) ∧ (∃ sipm, (selectSiPM build s).1 = some sipm) ∧
    r.1.board_size_ = boardSizeWith rnd s (selectSiPM build s).2.1 ∧
    r.1.sipm_positions_ = s.sipm_positions_ ++
      gridWith rnd (boardSizeWith rnd s (selectSiPM build s).2.1).x
        (boardSizeWith rnd s (selectSiPM build s).2.1).y s.sipm_pitch_ s.side_reduction_ ∧
    r.1.kapton_gen_ = some
      { inner_x := (boardSizeWith rnd s (selectSiPM build s).2.1).x,
        inner_y := (boardSizeWith rnd s (selectSiPM build s).2.1).y,
        inner_z := s.kapton_thickn_, thickness := 0,
        origin := ⟨0, 0, rnd (rnd (-(boardSizeWith rnd s (selectSiPM build s).2.1).z / 2) +
          rnd (s.kapton_thickn_ / 2))⟩,
        rotation := none } := by
  unfold ConstructWith at h
  simp only [bind, Except.bind, pure, Except.pure, GenerateSiPMPositionsWith_eq] at h
  split at h
  · cases h
  · split at h
    · cases h
    · split at h
      · cases h
      · cases h
        rename_i hv _ _ hs _ _ hp
        exact ⟨⟨_, hv⟩, ⟨_, hs⟩, by simp [boardSizeWith], by simp [boardSizeWith],
          by simp [boardSizeWith]⟩

/-- The board, kapton, mask and coating volumes of a run of `ConstructWith` that
returns. -/
theorem ConstructWith_ok_layers {rnd : ℚ → ℚ}
    {build : SiPMSettings → G4ThreeVector × G4LogicalVolume}
    {s : NextDemoSiPMBoard} {r : NextDemoSiPMBoard × BoardVolumes}
    (h : ConstructWith rnd build s = .ok r) :
    r.2.board_logic.solid = some (.G4Box "SIPM_BOARD" (rnd (r.1.board_size_.x / 2))
      (rnd (r.1.board_size_.y / 2)) (rnd (r.1.board_size_.z / 2))) ∧
    r.2.kapton_phys.tlate =
      ⟨0, 0, rnd (rnd (-r.1.board_size_.z / 2) + rnd (s.kapton_thickn_ / 2))⟩ ∧
    r.2.kapton_phys.logical.solid = some (.G4Box "KAPTON_BOARD" (rnd (r.1.board_size_.x / 2))
      (rnd (r.1.board_size_.y / 2)) (rnd (s.kapton_thickn_ / 2))) ∧
    r.2.kapton_phys.mother = r.2.board_logic ∧
    r.2.mask_phys.tlate =
      ⟨0, 0, rnd (rnd (rnd (-r.1.board_size_.z / 2) + s.kapton_thickn_) +
        rnd (s.mask_thickn_ / 2))⟩ ∧
    r.2.mask_phys.logical.solid = some (.G4Box "BOARD_MASK" (rnd (r.1.board_size_.x / 2))
      (rnd (r.1.board_size_.y / 2)) (rnd (s.mask_thickn_ / 2))) ∧
    r.2.mask_phys.mother = r.2.board_logic ∧
    (¬ s.coating_thickn_ > 0 → r.2.coating_phys = none) ∧
    (s.coating_thickn_ > 0 → ∃ cp, r.2.coating_phys = some cp ∧
      cp.tlate = ⟨0, 0, rnd (rnd (r.1.board_size_.z / 2) - rnd (s.coating_thickn_ / 2))⟩ ∧
      cp.logical.solid = some (.G4Box "BOARD_COATING" (rnd (r.1.board_size_.x / 2))
        (rnd (r.1.board_size_.y / 2)) (rnd (s.coating_thickn_ / 2))) ∧
      cp.mother = r.2.board_logic) := by
  unfold ConstructWith at h
  simp only [bind, Except.bind, pure, Except.pure, GenerateSiPMPositionsWith_eq] at h
  split at h
  · cases h
  · split at h
    · cases h
    · split at h
      · cases h
      · cases h
        refine ⟨rfl, rfl, rfl, rfl, rfl, rfl, rfl, ?_, ?_⟩
        · intro hc; simp [hc]
        · intro hc; simp [hc]

/-- `ConstructWith` returns on a valid configuration with a sensor and at most 64
placements to make. -/
theorem ConstructWith_succeeds (rnd : ℚ → ℚ)
    (build : SiPMSettings → G4ThreeVector × G4LogicalVolume)
    (s : NextDemoSiPMBoard) (gas : G4Material) (sipm : SiPM)
    (hv : validate s = .ok gas) (hs : (selectSiPM build s).1 = some sipm)
    (hn : s.num_sipms_ ≤ s.sipm_positions_.length + 64) :
    ∃ r, ConstructWith rnd build s = .ok r := by
  unfold ConstructWith
  simp only [bind, Except.bind, pure, Except.pure, GenerateSiPMPositionsWith_eq]
  have hv2 : ∀ x : Option SiPM, validate { s with sipm_ := x } = validate s := fun _ => rfl
  rw [hv2, hv]
  simp only [hs]
  rw [placeHoles_of_le]
  · exact ⟨_, rfl⟩
  · simp [gridWith]; omega

/-- Rounding error of the board thickness `(k + c) + t` computed in binary64. -/
theorem boardThickness_bounds (k c t : ℚ) (hk0 : 0 ≤ k) (hk1 : k ≤ 1000) (hc0 : 0 ≤ c)
    (hc1 : c ≤ 1000) (ht0 : 0 ≤ t) (ht1 : t ≤ 1000) :
    k + c + t - 1 / 1099511627776 ≤ binary64 (binary64 (k + c) + t) ∧
    binary64 (binary64 (k + c) + t) ≤ k + c + t + 1 / 1099511627776 := by
  obtain ⟨a1, a2⟩ := binary64_bounds (k + c) (by linarith) (by linarith)
  obtain ⟨b1, b2⟩ := binary64_bounds (binary64 (k + c) + t) (by linarith) (by linarith)
  constructor <;> linarith

/-- Rounding errors of the faces of a slab of thickness `k` whose centre is computed
as `-B/2 + k/2` in binary64. -/
theorem kaptonFaces_bounds (B k : ℚ) (hB0 : -1 ≤ B) (hB1 : B ≤ 3001) (hk0 : 0 ≤ k)
    (hk1 : k ≤ 1000) :
    0 ≤ binary64 (k / 2) ∧
    -B / 2 - 4 / 2199023255552 ≤
      binary64 (binary64 (-B / 2) + binary64 (k / 2)) - binary64 (k / 2) ∧
    binary64 (binary64 (-B / 2) + binary64 (k / 2)) - binary64 (k / 2) ≤
      -B / 2 + 4 / 2199023255552 ∧
    -B / 2 + k - 4 / 2199023255552 ≤
      binary64 (binary64 (-B / 2) + binary64 (k / 2)) + binary64 (k / 2) ∧
    binary64 (binary64 (-B / 2) + binary64 (k / 2)) + binary64 (k / 2) ≤
      -B / 2 + k + 4 / 2199023255552 := by
  obtain ⟨n1, n2⟩ := binary64_bounds (-B / 2) (by linarith) (by linarith)
  obtain ⟨k1, k2⟩ := binary64_bounds (k / 2) (by linarith) (by linarith)
  obtain ⟨z1, z2⟩ := binary64_bounds (binary64 (-B / 2) + binary64 (k / 2))
    (by linarith) (by linarith)
  have hk3 : 0 ≤ binary64 (k / 2) := binary64_nonneg _ (by linarith)
  refine ⟨hk3, ?_, ?_, ?_, ?_⟩ <;> linarith

/-- Rounding errors of the faces of a slab of thickness `m` whose centre is computed
as `-B/2 + k + m/2` in binary64. -/
theorem maskFaces_bounds (B k m : ℚ) (hB0 : -1 ≤ B) (hB1 : B ≤ 3001) (hk0 : 0 ≤ k)
    (hk1 : k ≤ 1000) (hm0 : 0 ≤ m) (hm1 : m ≤ 1000) :
    0 ≤ binary64 (m / 2) ∧
    -B / 2 + k - 5 / 2199023255552 ≤
      binary64 (binary64 (binary64 (-B / 2) + k) + binary64 (m / 2)) - binary64 (m / 2) ∧
    binary64 (binary64 (binary64 (-B / 2) + k) + binary64 (m / 2)) - binary64 (m / 2) ≤
      -B / 2 + k + 5 / 2199023255552 ∧
    -B / 2 + k + m - 5 / 2199023255552 ≤
      binary64 (binary64 (binary64 (-B / 2) + k) + binary64 (m / 2)) + binary64 (m / 2) ∧
    binary64 (binary64 (binary64 (-B / 2) + k) + binary64 (m / 2)) + binary64 (m / 2) ≤
      -B / 2 + k + m + 5 / 2199023255552 := by
  obtain ⟨n1, n2⟩ := binary64_bounds (-B / 2) (by linarith) (by linarith)
  obtain ⟨m1, m2⟩ := binary64_bounds (m / 2) (by linarith) (by linarith)
  obtain ⟨t1, t2⟩ := binary64_bounds (binary64 (-B / 2) + k) (by linarith) (by linarith)
  obtain ⟨z1, z2⟩ := binary64_bounds (binary64 (binary64 (-B / 2) + k) + binary64 (m / 2))
    (by linarith) (by linarith)
  have hm3 : 0 ≤ binary64 (m / 2) := binary64_nonneg _ (by linarith)
  refine ⟨hm3, ?_, ?_, ?_, ?_⟩ <;> linarith

/-- Rounding errors of the faces of a slab of thickness `c` whose centre is computed
as `B/2 - c/2` in binary64. -/
theorem coatingFaces_bounds (B c : ℚ) (hB0 : -1 ≤ B) (hB1 : B ≤ 3001) (hc0 : 0 ≤ c)
    (hc1 : c ≤ 1000) :
    0 ≤ binary64 (c / 2) ∧
    B / 2 - c - 4 / 2199023255552 ≤
      binary64 (binary64 (B / 2) - binary64 (c / 2)) - binary64 (c / 2) ∧
    binary64 (binary64 (B / 2) - binary64 (c / 2)) - binary64 (c / 2) ≤
      B / 2 - c + 4 / 2199023255552 ∧
    B / 2 - 4 / 2199023255552 ≤
      binary64 (binary64 (B / 2) - binary64 (c / 2)) + binary64 (c / 2) ∧
    binary64 (binary64 (B / 2) - binary64 (c / 2)) + binary64 (c / 2) ≤
      B / 2 + 4 / 2199023255552 := by
  obtain ⟨p1, p2⟩ := binary64_bounds (B / 2) (by linarith) (by linarith)
  obtain ⟨c1, c2⟩ := binary64_bounds (c / 2) (by linarith) (by linarith)
  obtain ⟨z1, z2⟩ := binary64_bounds (binary64 (B / 2) - binary64 (c / 2))
    (by linarith) (by linarith)
  have hc3 : 0 ≤ binary64 (c / 2) := binary64_nonneg _ (by linarith)
  refine ⟨hc3, ?_, ?_, ?_, ?_⟩ <;> linarith

/-! ## Evaluations in binary64 -/

/-- Rounding of `10` to binary64 gives `10`. -/
theorem binary64_eval_1 :
    binary64 (10 * 1) = 10 := by
  rw [binary64_eq_of_near_pos _ 3 5629499534213120 (by norm_num) (by norm_num) (by norm_num)
    (by norm_num) (by norm_num)]
  norm_num

/-- Rounding of `0.5` to binary64 gives `0.5`. -/
theorem binary64_eval_2 :
    binary64 (1 / 2) = 1 / 2 := by
  rw [binary64_eq_of_near_pos _ (-1) 4503599627370496 (by norm_num) (by norm_num) (by norm_num)
    (by norm_num) (by norm_num)]
  norm_num

/-- Rounding of `0.5` to binary64 gives `0.5`. -/
theorem binary64_eval_3 :
    binary64 ((1 / 2) * 1) = 1 / 2 := by
  rw [binary64_eq_of_near_pos _ (-1) 4503599627370496 (by norm_num) (by norm_num) (by norm_num)
    (by norm_num) (by norm_num)]
  norm_num

/-- Rounding of `0.29999999999999999` to binary64 gives `0.29999999999999999`. -/
theorem binary64_eval_4 :
    binary64 (3 / 10) = 5404319552844595 / 18014398509481984 := by
  rw [binary64_eq_of_near_pos _ (-2) 5404319552844595 (by norm_num) (by norm_num) (by norm_num)
    (by norm_num) (by norm_num)]
  norm_num

/-- Rounding of `0.29999999999999999` to binary64 gives `0.29999999999999999`. -/
theorem binary64_eval_5 :
    binary64 ((5404319552844595 / 18014398509481984) * 1) = 5404319552844595 / 18014398509481984 := by
  rw [binary64_eq_of_near_pos _ (-2) 5404319552844595 (by norm_num) (by norm_num) (by norm_num)
    (by norm_num) (by norm_num)]
  norm_num

/-- Rounding of `2` to binary64 gives `2`. -/
theorem binary64_eval_6 :
    binary64 (2 * 1) = 2 := by
  rw [binary64_eq_of_near_pos _ 1 4503599627370496 (by norm_num) (by norm_num) (by norm_num)
    (by norm_num) (by norm_num)]
  norm_num

/-- Rounding of `3.5` to binary64 gives `3.5`. -/
theorem binary64_eval_7 :
    binary64 (7 / 2) = 7 / 2 := by
  rw [binary64_eq_of_near_pos _ 1 7881299347898368 (by norm_num) (by norm_num) (by norm_num)
    (by norm_num) (by norm_num)]
  norm_num

/-- Rounding of `3.5` to binary64 gives `3.5`. -/
theorem binary64_eval_8 :
    binary64 ((7 / 2) * 1) = 7 / 2 := by
  rw [binary64_eq_of_near_pos _ 1 7881299347898368 (by norm_num) (by norm_num) (by norm_num)
    (by norm_num) (by norm_num)]
  norm_num

/-- Rounding of `0` to binary64 gives `0`. -/
theorem binary64_eval_9 :
    binary64 (0 * 1) = 0 := by
  rw [show ((0 * 1) : ℚ) = 0 by norm_num, binary64_zero]

/-- Rounding of `1000` to binary64 gives `1000`. -/
theorem binary64_eval_10 :
    binary64 (1 * 1000) = 1000 := by
  rw [binary64_eq_of_near_pos _ 9 8796093022208000 (by norm_num) (by norm_num) (by norm_num)
    (by norm_num) (by norm_num)]
  norm_num

/-- Rounding of `1` to binary64 gives `1`. -/
theorem binary64_eval_11 :
    binary64 (1 * 1) = 1 := by
  rw [binary64_eq_of_near_pos _ 0 4503599627370496 (by norm_num) (by norm_num) (by norm_num)
    (by norm_num) (by norm_num)]
  norm_num

/-- Rounding of `0.10000000000000001` to binary64 gives `0.10000000000000001`. -/
theorem binary64_eval_12 :
    binary64 (1 / 10) = 3602879701896397 / 36028797018963968 := by
  rw [binary64_eq_of_near_pos _ (-4) 7205759403792794 (by norm_num) (by norm_num) (by norm_num)
    (by norm_num) (by norm_num)]
  norm_num

/-- Rounding of `0.10000000000000001` to binary64 gives `0.10000000000000001`. -/
theorem binary64_eval_13 :
    binary64 ((3602879701896397 / 36028797018963968) * 1) = 3602879701896397 / 36028797018963968 := by
  rw [binary64_eq_of_near_pos _ (-4) 7205759403792794 (by norm_num) (by norm_num) (by norm_num)
    (by norm_num) (by norm_num)]
  norm_num

/-- Rounding of `0.002` to binary64 gives `0.002`. -/
theorem binary64_eval_14 :
    binary64 (2 / 1000) = 1152921504606847 / 576460752303423488 := by
  rw [binary64_eq_of_near_pos _ (-9) 4611686018427388 (by norm_num) (by norm_num) (by norm_num)
    (by norm_num) (by norm_num)]
  norm_num

/-- Rounding of `0.002` to binary64 gives `0.002`. -/
theorem binary64_eval_15 :
    binary64 ((1152921504606847 / 576460752303423488) * 1) = 1152921504606847 / 576460752303423488 := by
  rw [binary64_eq_of_near_pos _ (-9) 4611686018427388 (by norm_num) (by norm_num) (by norm_num)
    (by norm_num) (by norm_num)]
  norm_num

/-- Rounding of `15.550000000000001` to binary64 gives `15.550000000000001`. -/
theorem binary64_eval_16 :
    binary64 (1555 / 100) = 4376935887850701 / 281474976710656 := by
  rw [binary64_eq_of_near_pos _ 3 8753871775701402 (by norm_num) (by norm_num) (by norm_num)
    (by norm_num) (by norm_num)]
  norm_num

/-- Rounding of `15.550000000000001` to binary64 gives `15.550000000000001`. -/
theorem binary64_eval_17 :
    binary64 ((4376935887850701 / 281474976710656) * 1) = 4376935887850701 / 281474976710656 := by
  rw [binary64_eq_of_near_pos _ 3 8753871775701402 (by norm_num) (by norm_num) (by norm_num)
    (by norm_num) (by norm_num)]
  norm_num

/-- Rounding of `15.550000000000001` to binary64 gives `15.550000000000001`. -/
theorem binary64_eval_18 :
    binary64 (4376935887850701 / 281474976710656) = 4376935887850701 / 281474976710656 := by
  rw [binary64_eq_of_near_pos _ 3 8753871775701402 (by norm_num) (by norm_num) (by norm_num)
    (by norm_num) (by norm_num)]
  norm_num

/-- Rounding of `7.7749999999999968` to binary64 gives `7.7749999999999968`. -/
theorem binary64_eval_19 :
    binary64 (4376935887850699 / 562949953421312) = 4376935887850699 / 562949953421312 := by
  rw [binary64_eq_of_near_pos _ 2 8753871775701398 (by norm_num) (by norm_num) (by norm_num)
    (by norm_num) (by norm_num)]
  norm_num

/-- Rounding of `0.29999999999999999` to binary64 gives `0.29999999999999999`. -/
theorem binary64_eval_20 :
    binary64 (5404319552844595 / 18014398509481984 + 0) = 5404319552844595 / 18014398509481984 := by
  rw [binary64_eq_of_near_pos _ (-2) 5404319552844595 (by norm_num) (by norm_num) (by norm_num)
    (by norm_num) (by norm_num)]
  norm_num

/-- Rounding of `2.2999999999999998` to binary64 gives `2.2999999999999998`. -/
theorem binary64_eval_21 :
    binary64 (5404319552844595 / 18014398509481984 + (max (3 / 2) 2)) = 2589569785738035 / 1125899906842624 := by
  rw [binary64_eq_of_near_pos _ 1 5179139571476070 (by norm_num) (by norm_num) (by norm_num)
    (by norm_num) (by norm_num)]
  norm_num

/-- Rounding of `1.1499999999999999` to binary64 gives `1.1499999999999999`. -/
theorem binary64_eval_22 :
    binary64 ((2589569785738035 / 1125899906842624) / 2) = 2589569785738035 / 2251799813685248 := by
  rw [binary64_eq_of_near_pos _ 0 5179139571476070 (by norm_num) (by norm_num) (by norm_num)
    (by norm_num) (by norm_num)]
  norm_num

/-- Rounding of `-1.1499999999999999` to binary64 gives `-1.1499999999999999`. -/
theorem binary64_eval_23 :
    binary64 ((-(2589569785738035 / 1125899906842624)) / 2) = -(2589569785738035 / 2251799813685248) := by
  rw [binary64_eq_of_near_neg _ 0 (-5179139571476070) (by norm_num) (by norm_num) (by norm_num)
    (by norm_num) (by norm_num)]
  norm_num

/-- Rounding of `0.14999999999999999` to binary64 gives `0.14999999999999999`. -/
theorem binary64_eval_24 :
    binary64 ((5404319552844595 / 18014398509481984) / 2) = 5404319552844595 / 36028797018963968 := by
  rw [binary64_eq_of_near_pos _ (-3) 5404319552844595 (by norm_num) (by norm_num) (by norm_num)
    (by norm_num) (by norm_num)]
  norm_num

/-- Rounding of `-0.99999999999999989` to binary64 gives `-0.99999999999999989`. -/
theorem binary64_eval_25 :
    binary64 (-(2589569785738035 / 2251799813685248) + (5404319552844595 / 36028797018963968)) = -(9007199254740991 / 9007199254740992) := by
  rw [binary64_eq_of_near_neg _ (-1) (-9007199254740991) (by norm_num) (by norm_num) (by norm_num)
    (by norm_num) (by norm_num)]
  norm_num

/-- Rounding of `1` to binary64 gives `1`. -/
theorem binary64_eval_26 :
    binary64 (2 / 2) = 1 := by
  rw [binary64_eq_of_near_pos _ 0 4503599627370496 (by norm_num) (by norm_num) (by norm_num)
    (by norm_num) (by norm_num)]
  norm_num

/-- Rounding of `-0.84999999999999987` to binary64 gives `-0.84999999999999987`. -/
theorem binary64_eval_27 :
    binary64 (-(2589569785738035 / 2251799813685248) + (5404319552844595 / 18014398509481984)) = -(3828059683264921 / 4503599627370496) := by
  rw [binary64_eq_of_tie_neg _ (-1) (-7656119366529843) (-7656119366529842) (by norm_num) (by norm_num) (by norm_num)
    (by norm_num) (by decide)]
  norm_num

/-- Rounding of `0.15000000000000013` to binary64 gives `0.15000000000000013`. -/
theorem binary64_eval_28 :
    binary64 (-(3828059683264921 / 4503599627370496) + 1) = 675539944105575 / 4503599627370496 := by
  rw [binary64_eq_of_near_pos _ (-3) 5404319552844600 (by norm_num) (by norm_num) (by norm_num)
    (by norm_num) (by norm_num)]
  norm_num

/-- Rounding of `1.8` to binary64 gives `1.8`. -/
theorem binary64_eval_29 :
    binary64 (5404319552844595 / 18014398509481984 + (max (3 / 2) 1)) = 8106479329266893 / 4503599627370496 := by
  rw [binary64_eq_of_near_pos _ 0 8106479329266893 (by norm_num) (by norm_num) (by norm_num)
    (by norm_num) (by norm_num)]
  norm_num

/-- Rounding of `0.90000000000000002` to binary64 gives `0.90000000000000002`. -/
theorem binary64_eval_30 :
    binary64 ((8106479329266893 / 4503599627370496) / 2) = 8106479329266893 / 9007199254740992 := by
  rw [binary64_eq_of_near_pos _ (-1) 8106479329266893 (by norm_num) (by norm_num) (by norm_num)
    (by norm_num) (by norm_num)]
  norm_num

/-- Rounding of `-0.90000000000000002` to binary64 gives `-0.90000000000000002`. -/
theorem binary64_eval_31 :
    binary64 ((-(8106479329266893 / 4503599627370496)) / 2) = -(8106479329266893 / 9007199254740992) := by
  rw [binary64_eq_of_near_neg _ (-1) (-8106479329266893) (by norm_num) (by norm_num) (by norm_num)
    (by norm_num) (by norm_num)]
  norm_num

/-- Rounding of `-0.75` to binary64 gives `-0.75`. -/
theorem binary64_eval_32 :
    binary64 (-(8106479329266893 / 9007199254740992) + (5404319552844595 / 36028797018963968)) = -(3 / 4) := by
  rw [binary64_eq_of_near_neg _ (-1) (-6755399441055744) (by norm_num) (by norm_num) (by norm_num)
    (by norm_num) (by norm_num)]
  norm_num

/-- Rounding of `-0.60000000000000009` to binary64 gives `-0.60000000000000009`. -/
theorem binary64_eval_33 :
    binary64 (-(8106479329266893 / 9007199254740992) + (5404319552844595 / 18014398509481984)) = -(1351079888211149 / 2251799813685248) := by
  rw [binary64_eq_of_tie_neg _ (-1) (-5404319552844596) (-5404319552844596) (by norm_num) (by norm_num) (by norm_num)
    (by norm_num) (by decide)]
  norm_num

/-- Rounding of `-0.10000000000000009` to binary64 gives `-0.10000000000000009`. -/
theorem binary64_eval_34 :
    binary64 (-(1351079888211149 / 2251799813685248) + (1 / 2)) = -(225179981368525 / 2251799813685248) := by
  rw [binary64_eq_of_near_neg _ (-4) (-7205759403792800) (by norm_num) (by norm_num) (by norm_num)
    (by norm_num) (by norm_num)]
  norm_num

/-- Rounding of `0.30199999999999999` to binary64 gives `0.30199999999999999`. -/
theorem binary64_eval_35 :
    binary64 (5404319552844595 / 18014398509481984 + (1152921504606847 / 576460752303423488)) = 5440348349863559 / 18014398509481984 := by
  rw [binary64_eq_of_near_pos _ (-2) 5440348349863559 (by norm_num) (by norm_num) (by norm_num)
    (by norm_num) (by norm_num)]
  norm_num

/-- Rounding of `2.302` to binary64 gives `2.302`. -/
theorem binary64_eval_36 :
    binary64 (5440348349863559 / 18014398509481984 + (max (3 / 2) 2)) = 5183643171103441 / 2251799813685248 := by
  rw [binary64_eq_of_near_pos _ 1 5183643171103441 (by norm_num) (by norm_num) (by norm_num)
    (by norm_num) (by norm_num)]
  norm_num

/-- Rounding of `1.151` to binary64 gives `1.151`. -/
theorem binary64_eval_37 :
    binary64 ((5183643171103441 / 2251799813685248) / 2) = 5183643171103441 / 4503599627370496 := by
  rw [binary64_eq_of_near_pos _ 0 5183643171103441 (by norm_num) (by norm_num) (by norm_num)
    (by norm_num) (by norm_num)]
  norm_num

/-- Rounding of `-1.151` to binary64 gives `-1.151`. -/
theorem binary64_eval_38 :
    binary64 ((-(5183643171103441 / 2251799813685248)) / 2) = -(5183643171103441 / 4503599627370496) := by
  rw [binary64_eq_of_near_neg _ 0 (-5183643171103441) (by norm_num) (by norm_num) (by norm_num)
    (by norm_num) (by norm_num)]
  norm_num

/-- Rounding of `-1.0010000000000001` to binary64 gives `-1.0010000000000001`. -/
theorem binary64_eval_39 :
    binary64 (-(5183643171103441 / 4503599627370496) + (5404319552844595 / 36028797018963968)) = -(4508103226997867 / 4503599627370496) := by
  rw [binary64_eq_of_near_neg _ 0 (-4508103226997867) (by norm_num) (by norm_num) (by norm_num)
    (by norm_num) (by norm_num)]
  norm_num

/-- Rounding of `-0.85099999999999998` to binary64 gives `-0.85099999999999998`. -/
theorem binary64_eval_40 :
    binary64 (-(5183643171103441 / 4503599627370496) + (5404319552844595 / 18014398509481984)) = -(958140820723073 / 1125899906842624) := by
  rw [binary64_eq_of_tie_neg _ (-1) (-7665126565784585) (-7665126565784584) (by norm_num) (by norm_num) (by norm_num)
    (by norm_num) (by decide)]
  norm_num

/-- Rounding of `0.14900000000000002` to binary64 gives `0.14900000000000002`. -/
theorem binary64_eval_41 :
    binary64 (-(958140820723073 / 1125899906842624) + 1) = 167759086119551 / 1125899906842624 := by
  rw [binary64_eq_of_near_pos _ (-3) 5368290755825632 (by norm_num) (by norm_num) (by norm_num)
    (by norm_num) (by norm_num)]
  norm_num

/-- Rounding of `0.001` to binary64 gives `0.001`. -/
theorem binary64_eval_42 :
    binary64 ((1152921504606847 / 576460752303423488) / 2) = 1152921504606847 / 1152921504606846976 := by
  rw [binary64_eq_of_near_pos _ (-10) 4611686018427388 (by norm_num) (by norm_num) (by norm_num)
    (by norm_num) (by norm_num)]
  norm_num

/-- Rounding of `1.1500000000000001` to binary64 gives `1.1500000000000001`. -/
theorem binary64_eval_43 :
    binary64 (5183643171103441 / 4503599627370496 - (1152921504606847 / 1152921504606846976)) = 5179139571476071 / 4503599627370496 := by
  rw [binary64_eq_of_near_pos _ 0 5179139571476071 (by norm_num) (by norm_num) (by norm_num)
    (by norm_num) (by norm_num)]
  norm_num

/-- Rounding of `1.3` to binary64 gives `1.3`. -/
theorem binary64_eval_44 :
    binary64 (5404319552844595 / 18014398509481984 + 1) = 5854679515581645 / 4503599627370496 := by
  rw [binary64_eq_of_near_pos _ 0 5854679515581645 (by norm_num) (by norm_num) (by norm_num)
    (by norm_num) (by norm_num)]
  norm_num

/-- Rounding of `1.3` to binary64 gives `1.3`. -/
theorem binary64_eval_45 :
    binary64 (5854679515581645 / 4503599627370496 + 0) = 5854679515581645 / 4503599627370496 := by
  rw [binary64_eq_of_near_pos _ 0 5854679515581645 (by norm_num) (by norm_num) (by norm_num)
    (by norm_num) (by norm_num)]
  norm_num

/-- Rounding of `2.2999999999999998` to binary64 gives `2.2999999999999998`. -/
theorem binary64_eval_46 :
    binary64 (5404319552844595 / 18014398509481984 + 2) = 2589569785738035 / 1125899906842624 := by
  rw [binary64_eq_of_near_pos _ 1 5179139571476070 (by norm_num) (by norm_num) (by norm_num)
    (by norm_num) (by norm_num)]
  norm_num

/-- Rounding of `2.3019999999999996` to binary64 gives `2.3019999999999996`. -/
theorem binary64_eval_47 :
    binary64 (2589569785738035 / 1125899906842624 + (1152921504606847 / 576460752303423488)) = 323977698193965 / 140737488355328 := by
  rw [binary64_eq_of_near_pos _ 1 5183643171103440 (by norm_num) (by norm_num) (by norm_num)
    (by norm_num) (by norm_num)]
  norm_num

/-- Rounding of `124.40000000000001` to binary64 gives `124.40000000000001`. -/
theorem binary64_eval_48 :
    binary64 (8 * (4376935887850701 / 281474976710656)) = 4376935887850701 / 35184372088832 := by
  rw [binary64_eq_of_near_pos _ 6 8753871775701402 (by norm_num) (by norm_num) (by norm_num)
    (by norm_num) (by norm_num)]
  norm_num

/-- Rounding of `15.549999999999994` to binary64 gives `15.549999999999994`. -/
theorem binary64_eval_49 :
    binary64 (2 * (4376935887850699 / 562949953421312)) = 4376935887850699 / 281474976710656 := by
  rw [binary64_eq_of_near_pos _ 3 8753871775701398 (by norm_num) (by norm_num) (by norm_num)
    (by norm_num) (by norm_num)]
  norm_num

/-- Rounding of `108.85000000000001` to binary64 gives `108.85000000000001`. -/
theorem binary64_eval_50 :
    binary64 (4376935887850701 / 35184372088832 - (4376935887850699 / 281474976710656)) = 7659637803738727 / 70368744177664 := by
  rw [binary64_eq_of_near_pos _ 6 7659637803738727 (by norm_num) (by norm_num) (by norm_num)
    (by norm_num) (by norm_num)]
  norm_num

/-- Rounding of `54.425000000000004` to binary64 gives `54.425000000000004`. -/
theorem binary64_eval_51 :
    binary64 ((7659637803738727 / 70368744177664) / 2) = 7659637803738727 / 140737488355328 := by
  rw [binary64_eq_of_near_pos _ 5 7659637803738727 (by norm_num) (by norm_num) (by norm_num)
    (by norm_num) (by norm_num)]
  norm_num

/-- Rounding of `-54.425000000000004` to binary64 gives `-54.425000000000004`. -/
theorem binary64_eval_52 :
    binary64 ((-(7659637803738727 / 70368744177664)) / 2) = -(7659637803738727 / 140737488355328) := by
  rw [binary64_eq_of_near_neg _ 5 (-7659637803738727) (by norm_num) (by norm_num) (by norm_num)
    (by norm_num) (by norm_num)]
  norm_num

/-- Rounding of `7.7750000000000004` to binary64 gives `7.7750000000000004`. -/
theorem binary64_eval_53 :
    binary64 ((4376935887850701 / 281474976710656) / 2) = 4376935887850701 / 562949953421312 := by
  rw [binary64_eq_of_near_pos _ 2 8753871775701402 (by norm_num) (by norm_num) (by norm_num)
    (by norm_num) (by norm_num)]
  norm_num

/-- Rounding of `3.5527136788005009e-15` to binary64 gives `3.5527136788005009e-15`. -/
theorem binary64_eval_54 :
    binary64 (4376935887850701 / 562949953421312 - (4376935887850699 / 562949953421312)) = 1 / 281474976710656 := by
  rw [binary64_eq_of_near_pos _ (-48) 4503599627370496 (by norm_num) (by norm_num) (by norm_num)
    (by norm_num) (by norm_num)]
  norm_num

/-- Rounding of `54.424999999999997` to binary64 gives `54.424999999999997`. -/
theorem binary64_eval_55 :
    binary64 (7659637803738727 / 140737488355328 - (1 / 281474976710656)) = 3829818901869363 / 70368744177664 := by
  rw [binary64_eq_of_tie_pos _ 5 7659637803738726 7659637803738726 (by norm_num) (by norm_num) (by norm_num)
    (by norm_num) (by decide)]
  norm_num

/-- Rounding of `-54.424999999999997` to binary64 gives `-54.424999999999997`. -/
theorem binary64_eval_56 :
    binary64 (-(7659637803738727 / 140737488355328) + (1 / 281474976710656)) = -(3829818901869363 / 70368744177664) := by
  rw [binary64_eq_of_tie_neg _ 5 (-7659637803738727) (-7659637803738726) (by norm_num) (by norm_num) (by norm_num)
    (by norm_num) (by decide)]
  norm_num

/-- Rounding of `108.85000000000001` to binary64 gives `108.85000000000001`. -/
theorem binary64_eval_57 :
    binary64 (7 * (4376935887850701 / 281474976710656)) = 7659637803738727 / 70368744177664 := by
  rw [binary64_eq_of_near_pos _ 6 7659637803738727 (by norm_num) (by norm_num) (by norm_num)
    (by norm_num) (by norm_num)]
  norm_num

/-- Rounding of `-54.425000000000011` to binary64 gives `-54.425000000000011`. -/
theorem binary64_eval_58 :
    binary64 (3829818901869363 / 70368744177664 - (7659637803738727 / 70368744177664)) = -(957454725467341 / 17592186044416) := by
  rw [binary64_eq_of_near_neg _ 5 (-7659637803738728) (by norm_num) (by norm_num) (by norm_num)
    (by norm_num) (by norm_num)]
  norm_num

/-- Rounding of `0` to binary64 gives `0`. -/
theorem binary64_eval_59 :
    binary64 (0 * (4376935887850701 / 281474976710656)) = 0 := by
  rw [show ((0 * (4376935887850701 / 281474976710656)) : ℚ) = 0 by norm_num, binary64_zero]

/-- Rounding of `-54.424999999999997` to binary64 gives `-54.424999999999997`. -/
theorem binary64_eval_60 :
    binary64 (-(3829818901869363 / 70368744177664) + 0) = -(3829818901869363 / 70368744177664) := by
  rw [binary64_eq_of_near_neg _ 5 (-7659637803738726) (by norm_num) (by norm_num) (by norm_num)
    (by norm_num) (by norm_num)]
  norm_num

/-- Rounding of `1` to binary64 gives `1`. -/
theorem binary64_eval_61 :
    binary64 (2 * (1 / 2)) = 1 := by
  rw [binary64_eq_of_near_pos _ 0 4503599627370496 (by norm_num) (by norm_num) (by norm_num)
    (by norm_num) (by norm_num)]
  norm_num

/-- Rounding of `123.40000000000001` to binary64 gives `123.40000000000001`. -/
theorem binary64_eval_62 :
    binary64 (4376935887850701 / 35184372088832 - 1) = 4341751515761869 / 35184372088832 := by
  rw [binary64_eq_of_near_pos _ 6 8683503031523738 (by norm_num) (by norm_num) (by norm_num)
    (by norm_num) (by norm_num)]
  norm_num

/-- Rounding of `61.700000000000003` to binary64 gives `61.700000000000003`. -/
theorem binary64_eval_63 :
    binary64 ((4341751515761869 / 35184372088832) / 2) = 4341751515761869 / 70368744177664 := by
  rw [binary64_eq_of_near_pos _ 5 8683503031523738 (by norm_num) (by norm_num) (by norm_num)
    (by norm_num) (by norm_num)]
  norm_num

/-- Rounding of `-61.700000000000003` to binary64 gives `-61.700000000000003`. -/
theorem binary64_eval_64 :
    binary64 ((-(4341751515761869 / 35184372088832)) / 2) = -(4341751515761869 / 70368744177664) := by
  rw [binary64_eq_of_near_neg _ 5 (-8683503031523738) (by norm_num) (by norm_num) (by norm_num)
    (by norm_num) (by norm_num)]
  norm_num

/-- Rounding of `7.2750000000000004` to binary64 gives `7.2750000000000004`. -/
theorem binary64_eval_65 :
    binary64 (4376935887850701 / 562949953421312 - (1 / 2)) = 4095460911140045 / 562949953421312 := by
  rw [binary64_eq_of_near_pos _ 2 8190921822280090 (by norm_num) (by norm_num) (by norm_num)
    (by norm_num) (by norm_num)]
  norm_num

/-- Rounding of `54.425000000000004` to binary64 gives `54.425000000000004`. -/
theorem binary64_eval_66 :
    binary64 (4341751515761869 / 70368744177664 - (4095460911140045 / 562949953421312)) = 7659637803738727 / 140737488355328 := by
  rw [binary64_eq_of_near_pos _ 5 7659637803738727 (by norm_num) (by norm_num) (by norm_num)
    (by norm_num) (by norm_num)]
  norm_num

/-- Rounding of `-54.425000000000004` to binary64 gives `-54.425000000000004`. -/
theorem binary64_eval_67 :
    binary64 (-(4341751515761869 / 70368744177664) + (4095460911140045 / 562949953421312)) = -(7659637803738727 / 140737488355328) := by
  rw [binary64_eq_of_near_neg _ 5 (-7659637803738727) (by norm_num) (by norm_num) (by norm_num)
    (by norm_num) (by norm_num)]
  norm_num

/-- Rounding of `15.550000000000001` to binary64 gives `15.550000000000001`. -/
theorem binary64_eval_68 :
    binary64 (1 * (4376935887850701 / 281474976710656)) = 4376935887850701 / 281474976710656 := by
  rw [binary64_eq_of_near_pos _ 3 8753871775701402 (by norm_num) (by norm_num) (by norm_num)
    (by norm_num) (by norm_num)]
  norm_num

/-- Rounding of `38.875` to binary64 gives `38.875`. -/
theorem binary64_eval_69 :
    binary64 (7659637803738727 / 140737488355328 - (4376935887850701 / 281474976710656)) = 311 / 8 := by
  rw [binary64_eq_of_tie_pos _ 5 5471169859813376 5471169859813376 (by norm_num) (by norm_num) (by norm_num)
    (by norm_num) (by decide)]
  norm_num

/-- Rounding of `-54.425000000000004` to binary64 gives `-54.425000000000004`. -/
theorem binary64_eval_70 :
    binary64 (-(7659637803738727 / 140737488355328) + 0) = -(7659637803738727 / 140737488355328) := by
  rw [binary64_eq_of_near_neg _ 5 (-7659637803738727) (by norm_num) (by norm_num) (by norm_num)
    (by norm_num) (by norm_num)]
  norm_num

/-- Rounding of `31.100000000000001` to binary64 gives `31.100000000000001`. -/
theorem binary64_eval_71 :
    binary64 (2 * (4376935887850701 / 281474976710656)) = 4376935887850701 / 140737488355328 := by
  rw [binary64_eq_of_near_pos _ 4 8753871775701402 (by norm_num) (by norm_num) (by norm_num)
    (by norm_num) (by norm_num)]
  norm_num

/-- Rounding of `23.325000000000003` to binary64 gives `23.325000000000003`. -/
theorem binary64_eval_72 :
    binary64 (7659637803738727 / 140737488355328 - (4376935887850701 / 140737488355328)) = 1641350957944013 / 70368744177664 := by
  rw [binary64_eq_of_near_pos _ 4 6565403831776052 (by norm_num) (by norm_num) (by norm_num)
    (by norm_num) (by norm_num)]
  norm_num

/-- Rounding of `80` to binary64 gives `80`. -/
theorem binary64_eval_73 :
    binary64 (8 * 10) = 80 := by
  rw [binary64_eq_of_near_pos _ 6 5629499534213120 (by norm_num) (by norm_num) (by norm_num)
    (by norm_num) (by norm_num)]
  norm_num

/-- Rounding of `79` to binary64 gives `79`. -/
theorem binary64_eval_74 :
    binary64 (80 - 1) = 79 := by
  rw [binary64_eq_of_near_pos _ 6 5559130790035456 (by norm_num) (by norm_num) (by norm_num)
    (by norm_num) (by norm_num)]
  norm_num

/-- Rounding of `39.5` to binary64 gives `39.5`. -/
theorem binary64_eval_75 :
    binary64 (79 / 2) = 79 / 2 := by
  rw [binary64_eq_of_near_pos _ 5 5559130790035456 (by norm_num) (by norm_num) (by norm_num)
    (by norm_num) (by norm_num)]
  norm_num

/-- Rounding of `-39.5` to binary64 gives `-39.5`. -/
theorem binary64_eval_76 :
    binary64 ((-79) / 2) = -(79 / 2) := by
  rw [binary64_eq_of_near_neg _ 5 (-5559130790035456) (by norm_num) (by norm_num) (by norm_num)
    (by norm_num) (by norm_num)]
  norm_num

/-- Rounding of `5` to binary64 gives `5`. -/
theorem binary64_eval_77 :
    binary64 (10 / 2) = 5 := by
  rw [binary64_eq_of_near_pos _ 2 5629499534213120 (by norm_num) (by norm_num) (by norm_num)
    (by norm_num) (by norm_num)]
  norm_num

/-- Rounding of `4.5` to binary64 gives `4.5`. -/
theorem binary64_eval_78 :
    binary64 (5 - (1 / 2)) = 9 / 2 := by
  rw [binary64_eq_of_near_pos _ 2 5066549580791808 (by norm_num) (by norm_num) (by norm_num)
    (by norm_num) (by norm_num)]
  norm_num

/-- Rounding of `35` to binary64 gives `35`. -/
theorem binary64_eval_79 :
    binary64 (79 / 2 - (9 / 2)) = 35 := by
  rw [binary64_eq_of_near_pos _ 5 4925812092436480 (by norm_num) (by norm_num) (by norm_num)
    (by norm_num) (by norm_num)]
  norm_num

/-- Rounding of `-35` to binary64 gives `-35`. -/
theorem binary64_eval_80 :
    binary64 (-(79 / 2) + (9 / 2)) = -(35) := by
  rw [binary64_eq_of_near_neg _ 5 (-4925812092436480) (by norm_num) (by norm_num) (by norm_num)
    (by norm_num) (by norm_num)]
  norm_num

/-- The evaluations above as one statement. -/
theorem binary64_evals :
    (binary64 (10 * 1) = 10) ∧
    (binary64 (1 / 2) = 1 / 2) ∧
    (binary64 ((1 / 2) * 1) = 1 / 2) ∧
    (binary64 (3 / 10) = 5404319552844595 / 18014398509481984) ∧
    (binary64 ((5404319552844595 / 18014398509481984) * 1) = 5404319552844595 / 18014398509481984) ∧
    (binary64 (2 * 1) = 2) ∧
    (binary64 (7 / 2) = 7 / 2) ∧
    (binary64 ((7 / 2) * 1) = 7 / 2) ∧
    (binary64 (0 * 1) = 0) ∧
    (binary64 (1 * 1000) = 1000) ∧
    (binary64 (1 * 1) = 1) ∧
    (binary64 (1 / 10) = 3602879701896397 / 36028797018963968) ∧
    (binary64 ((3602879701896397 / 36028797018963968) * 1) = 3602879701896397 / 36028797018963968) ∧
    (binary64 (2 / 1000) = 1152921504606847 / 576460752303423488) ∧
    (binary64 ((1152921504606847 / 576460752303423488) * 1) = 1152921504606847 / 576460752303423488) ∧
    (binary64 (1555 / 100) = 4376935887850701 / 281474976710656) ∧
    (binary64 ((4376935887850701 / 281474976710656) * 1) = 4376935887850701 / 281474976710656) ∧
    (binary64 (4376935887850701 / 281474976710656) = 4376935887850701 / 281474976710656) ∧
    (binary64 (4376935887850699 / 562949953421312) = 4376935887850699 / 562949953421312) ∧
    (binary64 (5404319552844595 / 18014398509481984 + 0) = 5404319552844595 / 18014398509481984) ∧
    (binary64 (5404319552844595 / 18014398509481984 + (max (3 / 2) 2)) = 2589569785738035 / 1125899906842624) ∧
    (binary64 ((2589569785738035 / 1125899906842624) / 2) = 2589569785738035 / 2251799813685248) ∧
    (binary64 ((-(2589569785738035 / 1125899906842624)) / 2) = -(2589569785738035 / 2251799813685248)) ∧
    (binary64 ((5404319552844595 / 18014398509481984) / 2) = 5404319552844595 / 36028797018963968) ∧
    (binary64 (-(2589569785738035 / 2251799813685248) + (5404319552844595 / 36028797018963968)) = -(9007199254740991 / 9007199254740992)) ∧
    (binary64 (2 / 2) = 1) ∧
    (binary64 (-(2589569785738035 / 2251799813685248) + (5404319552844595 / 18014398509481984)) = -(3828059683264921 / 4503599627370496)) ∧
    (binary64 (-(3828059683264921 / 4503599627370496) + 1) = 675539944105575 / 4503599627370496) ∧
    (binary64 (5404319552844595 / 18014398509481984 + (max (3 / 2) 1)) = 8106479329266893 / 4503599627370496) ∧
    (binary64 ((8106479329266893 / 4503599627370496) / 2) = 8106479329266893 / 9007199254740992) ∧
    (binary64 ((-(8106479329266893 / 4503599627370496)) / 2) = -(8106479329266893 / 9007199254740992)) ∧
    (binary64 (-(8106479329266893 / 9007199254740992) + (5404319552844595 / 36028797018963968)) = -(3 / 4)) ∧
    (binary64 (-(8106479329266893 / 9007199254740992) + (5404319552844595 / 18014398509481984)) = -(1351079888211149 / 2251799813685248)) ∧
    (binary64 (-(1351079888211149 / 2251799813685248) + (1 / 2)) = -(225179981368525 / 2251799813685248)) ∧
    (binary64 (5404319552844595 / 18014398509481984 + (1152921504606847 / 576460752303423488)) = 5440348349863559 / 18014398509481984) ∧
    (binary64 (5440348349863559 / 18014398509481984 + (max (3 / 2) 2)) = 5183643171103441 / 2251799813685248) ∧
    (binary64 ((5183643171103441 / 2251799813685248) / 2) = 5183643171103441 / 4503599627370496) ∧
    (binary64 ((-(5183643171103441 / 2251799813685248)) / 2) = -(5183643171103441 / 4503599627370496)) ∧
    (binary64 (-(5183643171103441 / 4503599627370496) + (5404319552844595 / 36028797018963968)) = -(4508103226997867 / 4503599627370496)) ∧
    (binary64 (-(5183643171103441 / 4503599627370496) + (5404319552844595 / 18014398509481984)) = -(958140820723073 / 1125899906842624)) ∧
    (binary64 (-(958140820723073 / 1125899906842624) + 1) = 167759086119551 / 1125899906842624) ∧
    (binary64 ((1152921504606847 / 576460752303423488) / 2) = 1152921504606847 / 1152921504606846976) ∧
    (binary64 (5183643171103441 / 4503599627370496 - (1152921504606847 / 1152921504606846976)) = 5179139571476071 / 4503599627370496) ∧
    (binary64 (5404319552844595 / 18014398509481984 + 1) = 5854679515581645 / 4503599627370496) ∧
    (binary64 (5854679515581645 / 4503599627370496 + 0) = 5854679515581645 / 4503599627370496) ∧
    (binary64 (5404319552844595 / 18014398509481984 + 2) = 2589569785738035 / 1125899906842624) ∧
    (binary64 (2589569785738035 / 1125899906842624 + (1152921504606847 / 576460752303423488)) = 323977698193965 / 140737488355328) ∧
    (binary64 (8 * (4376935887850701 / 281474976710656)) = 4376935887850701 / 35184372088832) ∧
    (binary64 (2 * (4376935887850699 / 562949953421312)) = 4376935887850699 / 281474976710656) ∧
    (binary64 (4376935887850701 / 35184372088832 - (4376935887850699 / 281474976710656)) = 7659637803738727 / 70368744177664) ∧
    (binary64 ((7659637803738727 / 70368744177664) / 2) = 7659637803738727 / 140737488355328) ∧
    (binary64 ((-(7659637803738727 / 70368744177664)) / 2) = -(7659637803738727 / 140737488355328)) ∧
    (binary64 ((4376935887850701 / 281474976710656) / 2) = 4376935887850701 / 562949953421312) ∧
    (binary64 (4376935887850701 / 562949953421312 - (4376935887850699 / 562949953421312)) = 1 / 281474976710656) ∧
    (binary64 (7659637803738727 / 140737488355328 - (1 / 281474976710656)) = 3829818901869363 / 70368744177664) ∧
    (binary64 (-(7659637803738727 / 140737488355328) + (1 / 281474976710656)) = -(3829818901869363 / 70368744177664)) ∧
    (binary64 (7 * (4376935887850701 / 281474976710656)) = 7659637803738727 / 70368744177664) ∧
    (binary64 (3829818901869363 / 70368744177664 - (7659637803738727 / 70368744177664)) = -(957454725467341 / 17592186044416)) ∧
    (binary64 (0 * (4376935887850701 / 281474976710656)) = 0) ∧
    (binary64 (-(3829818901869363 / 70368744177664) + 0) = -(3829818901869363 / 70368744177664)) ∧
    (binary64 (2 * (1 / 2)) = 1) ∧
    (binary64 (4376935887850701 / 35184372088832 - 1) = 4341751515761869 / 35184372088832) ∧
    (binary64 ((4341751515761869 / 35184372088832) / 2) = 4341751515761869 / 70368744177664) ∧
    (binary64 ((-(4341751515761869 / 35184372088832)) / 2) = -(4341751515761869 / 70368744177664)) ∧
    (binary64 (4376935887850701 / 562949953421312 - (1 / 2)) = 4095460911140045 / 562949953421312) ∧
    (binary64 (4341751515761869 / 70368744177664 - (4095460911140045 / 562949953421312)) = 7659637803738727 / 140737488355328) ∧
    (binary64 (-(4341751515761869 / 70368744177664) + (4095460911140045 / 562949953421312)) = -(7659637803738727 / 140737488355328)) ∧
    (binary64 (1 * (4376935887850701 / 281474976710656)) = 4376935887850701 / 281474976710656) ∧
    (binary64 (7659637803738727 / 140737488355328 - (4376935887850701 / 281474976710656)) = 311 / 8) ∧
    (binary64 (-(7659637803738727 / 140737488355328) + 0) = -(7659637803738727 / 140737488355328)) ∧
    (binary64 (2 * (4376935887850701 / 281474976710656)) = 4376935887850701 / 140737488355328) ∧
    (binary64 (7659637803738727 / 140737488355328 - (4376935887850701 / 140737488355328)) = 1641350957944013 / 70368744177664) ∧
    (binary64 (8 * 10) = 80) ∧
    (binary64 (80 - 1) = 79) ∧
    (binary64 (79 / 2) = 79 / 2) ∧
    (binary64 ((-79) / 2) = -(79 / 2)) ∧
    (binary64 (10 / 2) = 5) ∧
    (binary64 (5 - (1 / 2)) = 9 / 2) ∧
    (binary64 (79 / 2 - (9 / 2)) = 35) ∧
    (binary64 (-(79 / 2) + (9 / 2)) = -(35)) :=
  ⟨binary64_eval_1, binary64_eval_2, binary64_eval_3, binary64_eval_4, binary64_eval_5,
    binary64_eval_6, binary64_eval_7, binary64_eval_8, binary64_eval_9, binary64_eval_10,
    binary64_eval_11, binary64_eval_12, binary64_eval_13, binary64_eval_14, binary64_eval_15,
    binary64_eval_16, binary64_eval_17, binary64_eval_18, binary64_eval_19, binary64_eval_20,
    binary64_eval_21, binary64_eval_22, binary64_eval_23, binary64_eval_24, binary64_eval_25,
    binary64_eval_26, binary64_eval_27, binary64_eval_28, binary64_eval_29, binary64_eval_30,
    binary64_eval_31, binary64_eval_32, binary64_eval_33, binary64_eval_34, binary64_eval_35,
    binary64_eval_36, binary64_eval_37, binary64_eval_38, binary64_eval_39, binary64_eval_40,
    binary64_eval_41, binary64_eval_42, binary64_eval_43, binary64_eval_44, binary64_eval_45,
    binary64_eval_46, binary64_eval_47, binary64_eval_48, binary64_eval_49, binary64_eval_50,
    binary64_eval_51, binary64_eval_52, binary64_eval_53, binary64_eval_54, binary64_eval_55,
    binary64_eval_56, binary64_eval_57, binary64_eval_58, binary64_eval_59, binary64_eval_60,
    binary64_eval_61, binary64_eval_62, binary64_eval_63, binary64_eval_64, binary64_eval_65,
    binary64_eval_66, binary64_eval_67, binary64_eval_68, binary64_eval_69, binary64_eval_70,
    binary64_eval_71, binary64_eval_72, binary64_eval_73, binary64_eval_74, binary64_eval_75,
    binary64_eval_76, binary64_eval_77, binary64_eval_78, binary64_eval_79, binary64_eval_80⟩

/-! ## The example boards in binary64 -/

/-- Values of the members of `board64`. -/
theorem board64_fields :
    board64.kapton_thickn_ = 5404319552844595 / 18014398509481984 ∧
    board64.mask_thickn_ = 2 ∧ board64.coating_thickn_ = 0 ∧
    board64.membrane_thickn_ = 0 ∧
    board64.sipm_pitch_ = 10 ∧
    board64.side_reduction_ = 1 / 2 ∧ board64.hole_diam_ = 7 / 2 ∧
    board64.num_columns_ = 8 ∧ board64.num_rows_ = 8 := by
  simp only [board64, boardPitch64, board64, newWith, mm, binary64_evals, and_self]

/-- The board `board64` passes the checks of `Construct`. -/
theorem validate_board64 : validate board64 = .ok gas0 := by
  obtain ⟨_, hM, hC, hMb, _, _, hD, _, _⟩ := board64_fields
  rw [validate_eq, hC, hMb, hM, hD]
  norm_num [board64, boardPitch64, board64, mother0]

/-- The sensors of `build0` on `board64` are 1.5 mm thick. -/
theorem selectSiPM_build0_board64 : (selectSiPM build0 board64).2.1 = 3 / 2 := by
  simp [selectSiPM, board64, boardPitch64, board64, newWith, build0]

/-- `ConstructWith binary64` returns on `board64`. -/
theorem ConstructWith_board64 : ∃ r, ConstructWith binary64 build0 board64 = .ok r := by
  obtain ⟨sipm, hs⟩ := selectSiPM_sensl build0 board64 rfl
  exact ConstructWith_succeeds binary64 build0 board64 gas0 sipm validate_board64 hs
    (by decide)

/-- Values of the members of `boardThinMask64`. -/
theorem boardThinMask64_fields :
    boardThinMask64.kapton_thickn_ = 5404319552844595 / 18014398509481984 ∧
    boardThinMask64.mask_thickn_ = 1 ∧ boardThinMask64.coating_thickn_ = 0 ∧
    boardThinMask64.membrane_thickn_ = 0 ∧
    boardThinMask64.sipm_pitch_ = 10 ∧
    boardThinMask64.side_reduction_ = 1 / 2 ∧ boardThinMask64.hole_diam_ = 7 / 2 ∧
    boardThinMask64.num_columns_ = 8 ∧ boardThinMask64.num_rows_ = 8 := by
  simp only [boardThinMask64, boardPitch64, board64, newWith, mm, binary64_evals, and_self]

/-- The board `boardThinMask64` passes the checks of `Construct`. -/
theorem validate_boardThinMask64 : validate boardThinMask64 = .ok gas0 := by
  obtain ⟨_, hM, hC, hMb, _, _, hD, _, _⟩ := boardThinMask64_fields
  rw [validate_eq, hC, hMb, hM, hD]
  norm_num [boardThinMask64, boardPitch64, board64, mother0]

/-- The sensors of `build0` on `boardThinMask64` are 1.5 mm thick. -/
theorem selectSiPM_build0_boardThinMask64 : (selectSiPM build0 boardThinMask64).2.1 = 3 / 2 := by
  simp [selectSiPM, boardThinMask64, boardPitch64, board64, newWith, build0]

/-- `ConstructWith binary64` returns on `boardThinMask64`. -/
theorem ConstructWith_boardThinMask64 : ∃ r, ConstructWith binary64 build0 boardThinMask64 = .ok r := by
  obtain ⟨sipm, hs⟩ := selectSiPM_sensl build0 boardThinMask64 rfl
  exact ConstructWith_succeeds binary64 build0 boardThinMask64 gas0 sipm validate_boardThinMask64 hs
    (by decide)

/-- Values of the members of `boardCoated64`. -/
theorem boardCoated64_fields :
    boardCoated64.kapton_thickn_ = 5404319552844595 / 18014398509481984 ∧
    boardCoated64.mask_thickn_ = 2 ∧ boardCoated64.coating_thickn_ = 1152921504606847 / 576460752303423488 ∧
    boardCoated64.membrane_thickn_ = 3602879701896397 / 36028797018963968 ∧
    boardCoated64.sipm_pitch_ = 10 ∧
    boardCoated64.side_reduction_ = 1 / 2 ∧ boardCoated64.hole_diam_ = 7 / 2 ∧
    boardCoated64.num_columns_ = 8 ∧ boardCoated64.num_rows_ = 8 := by
  simp only [boardCoated64, boardPitch64, board64, newWith, mm, binary64_evals, and_self]

/-- The board `boardCoated64` passes the checks of `Construct`. -/
theorem validate_boardCoated64 : validate boardCoated64 = .ok gas0 := by
  obtain ⟨_, hM, hC, hMb, _, _, hD, _, _⟩ := boardCoated64_fields
  rw [validate_eq, hC, hMb, hM, hD]
  norm_num [boardCoated64, boardPitch64, board64, mother0]

/-- The sensors of `build0` on `boardCoated64` are 1.5 mm thick. -/
theorem selectSiPM_build0_boardCoated64 : (selectSiPM build0 boardCoated64).2.1 = 3 / 2 := by
  simp [selectSiPM, boardCoated64, boardPitch64, board64, newWith, build0]

/-- `ConstructWith binary64` returns on `boardCoated64`. -/
theorem ConstructWith_boardCoated64 : ∃ r, ConstructWith binary64 build0 boardCoated64 = .ok r := by
  obtain ⟨sipm, hs⟩ := selectSiPM_sensl build0 boardCoated64 rfl
  exact ConstructWith_succeeds binary64 build0 boardCoated64 gas0 sipm validate_boardCoated64 hs
    (by decide)

/-- The sensors of `build0` on `boardPitch64` are 1.5 mm thick. -/
theorem selectSiPM_build0_boardPitch64 : (selectSiPM build0 boardPitch64).2.1 = 3 / 2 := by
  simp [selectSiPM, boardPitch64, boardPitch64, board64, newWith, build0]

/-- The sensors of `build0` on `boardPitchSide64` are 1.5 mm thick. -/
theorem selectSiPM_build0_boardPitchSide64 : (selectSiPM build0 boardPitchSide64).2.1 = 3 / 2 := by
  simp [selectSiPM, boardPitchSide64, boardPitch64, board64, newWith, build0]

/-- Claim C5, as amended: for thicknesses between 0 and 1000 mm and a sensor at most
1000 mm thick, a run of `Construct` in binary64 arithmetic sets `board_size_.z` to the
double `(kapton_thickn_ + coating_thickn_) + max(sipm_z_dim, mask_thickn_)`, each sum
rounded; this is within `1e-12` mm of the exact value
`kapton_thickn_ + coating_thickn_ + max(sipm_z_dim, mask_thickn_)`. Hence, when the
sensor is not thicker than the mask, the board thickness is within `1e-12` mm of the sum
of the layer thicknesses `kapton_thickn_ + mask_thickn_ + coating_thickn_`, and when the
sensor is thicker than the mask by more than `1e-12` mm, the board is thicker than that
sum. -/
theorem C5_board_thickness_within_rounding
    (build : SiPMSettings → G4ThreeVector × G4LogicalVolume)
    (s : NextDemoSiPMBoard) (r : NextDemoSiPMBoard × BoardVolumes)
    (hk0 : 0 ≤ s.kapton_thickn_) (hk1 : s.kapton_thickn_ ≤ 1000)
    (hm0 : 0 ≤ s.mask_thickn_) (hm1 : s.mask_thickn_ ≤ 1000)
    (hc0 : 0 ≤ s.coating_thickn_) (hc1 : s.coating_thickn_ ≤ 1000)
    (hz1 : (selectSiPM build s).2.1 ≤ 1000)
    (h : ConstructWith binary64 build s = .ok r) :
    r.1.board_size_.z =
      binary64 (binary64 (s.kapton_thickn_ + s.coating_thickn_) +
        max (selectSiPM build s).2.1 s.mask_thickn_) ∧
    |r.1.board_size_.z -
      (s.kapton_thickn_ + s.coating_thickn_ + max (selectSiPM build s).2.1 s.mask_thickn_)| ≤
        1 / 10 ^ 12 ∧
    ((selectSiPM build s).2.1 ≤ s.mask_thickn_ →
      |r.1.board_size_.z - (s.kapton_thickn_ + s.mask_thickn_ + s.coating_thickn_)| ≤
        1 / 10 ^ 12) ∧
    (s.mask_thickn_ + 1 / 10 ^ 12 < (selectSiPM build s).2.1 →
      s.kapton_thickn_ + s.mask_thickn_ + s.coating_thickn_ < r.1.board_size_.z) := by
  obtain ⟨_, _, hb, _, _⟩ := ConstructWith_ok_state h
  have hbz : r.1.board_size_.z =
      binary64 (binary64 (s.kapton_thickn_ + s.coating_thickn_) +
        max (selectSiPM build s).2.1 s.mask_thickn_) := by
    rw [hb]; rfl
  have hT0 : 0 ≤ max (selectSiPM build s).2.1 s.mask_thickn_ := le_max_of_le_right hm0
  have hT1 : max (selectSiPM build s).2.1 s.mask_thickn_ ≤ 1000 := max_le hz1 hm1
  obtain ⟨a1, a2⟩ := binary64_bounds (s.kapton_thickn_ + s.coating_thickn_)
    (by linarith) (by linarith)
  obtain ⟨b1, b2⟩ := binary64_bounds (binary64 (s.kapton_thickn_ + s.coating_thickn_) +
    max (selectSiPM build s).2.1 s.mask_thickn_) (by linarith) (by linarith)
  have hmain : |r.1.board_size_.z -
      (s.kapton_thickn_ + s.coating_thickn_ + max (selectSiPM build s).2.1 s.mask_thickn_)| ≤
        1 / 10 ^ 12 := by
    rw [hbz, abs_le]
    constructor <;> norm_num <;> linarith
  refine ⟨hbz, hmain, ?_, ?_⟩
  · intro hle
    rw [max_eq_right hle] at hmain
    have e : s.kapton_thickn_ + s.mask_thickn_ + s.coating_thickn_ =
        s.kapton_thickn_ + s.coating_thickn_ + s.mask_thickn_ := by ring
    rw [e]
    exact hmain
  · intro hlt
    have hmx : (selectSiPM build s).2.1 ≤ max (selectSiPM build s).2.1 s.mask_thickn_ :=
      le_max_left _ _
    obtain ⟨h1, _⟩ := abs_le.1 hmain
    norm_num at h1 hlt
    linarith

/-- Claim C5, as amended, on the board `boardCoated64` (kapton 0.3 mm, mask 2 mm, coating
0.002 mm, sensors 1.5 mm thick), on which `Construct` returns. -/
theorem C5_board_thickness_within_rounding_witness :
    0 ≤ boardCoated64.kapton_thickn_ ∧ boardCoated64.kapton_thickn_ ≤ 1000 ∧
    0 ≤ boardCoated64.mask_thickn_ ∧ boardCoated64.mask_thickn_ ≤ 1000 ∧
    0 ≤ boardCoated64.coating_thickn_ ∧ boardCoated64.coating_thickn_ ≤ 1000 ∧
    (selectSiPM build0 boardCoated64).2.1 ≤ 1000 ∧
    ∃ r, ConstructWith binary64 build0 boardCoated64 = .ok r ∧
      r.1.board_size_.z =
        binary64 (binary64 (boardCoated64.kapton_thickn_ + boardCoated64.coating_thickn_) +
          max (selectSiPM build0 boardCoated64).2.1 boardCoated64.mask_thickn_) ∧
      |r.1.board_size_.z -
        (boardCoated64.kapton_thickn_ + boardCoated64.coating_thickn_ +
          max (selectSiPM build0 boardCoated64).2.1 boardCoated64.mask_thickn_)| ≤
          1 / 10 ^ 12 ∧
      ((selectSiPM build0 boardCoated64).2.1 ≤ boardCoated64.mask_thickn_ →
        |r.1.board_size_.z - (boardCoated64.kapton_thickn_ + boardCoated64.mask_thickn_ +
          boardCoated64.coating_thickn_)| ≤ 1 / 10 ^ 12) ∧
      (boardCoated64.mask_thickn_ + 1 / 10 ^ 12 < (selectSiPM build0 boardCoated64).2.1 →
        boardCoated64.kapton_thickn_ + boardCoated64.mask_thickn_ +
          boardCoated64.coating_thickn_ < r.1.board_size_.z) := by
  obtain ⟨hK, hM, hC, _, _, _, _, _, _⟩ := boardCoated64_fields
  have hk0 : 0 ≤ boardCoated64.kapton_thickn_ := by rw [hK]; norm_num
  have hk1 : boardCoated64.kapton_thickn_ ≤ 1000 := by rw [hK]; norm_num
  have hm0 : 0 ≤ boardCoated64.mask_thickn_ := by rw [hM]; norm_num
  have hm1 : boardCoated64.mask_thickn_ ≤ 1000 := by rw [hM]; norm_num
  have hc0 : 0 ≤ boardCoated64.coating_thickn_ := by rw [hC]; norm_num
  have hc1 : boardCoated64.coating_thickn_ ≤ 1000 := by rw [hC]; norm_num
  have hz1 : (selectSiPM build0 boardCoated64).2.1 ≤ 1000 := by
    rw [selectSiPM_build0_boardCoated64]; norm_num
  obtain ⟨r, hr⟩ := ConstructWith_boardCoated64
  exact ⟨hk0, hk1, hm0, hm1, hc0, hc1, hz1, r, hr,
    C5_board_thickness_within_rounding build0 boardCoated64 r hk0 hk1 hm0 hm1 hc0 hc1 hz1 hr⟩

/-- Counterexample to claim C5: two valid boards on which `Construct`, in binary64
arithmetic, computes a board thickness that is not the sum of the layer thicknesses.
On `boardThinMask64` (kapton 0.3 mm, mask 1 mm, no coating, sensors 1.5 mm thick, so
thicker than the mask) `board_size_.z` is the double nearest 1.8 whereas the layers sum
to about 1.3. On `boardCoated64` (kapton 0.3 mm, mask 2 mm, coating 0.002 mm, sensors
1.5 mm thick, so not thicker than the mask) `board_size_.z` is
`2.3020000000000000462...`, which is neither the exact sum of the three doubles nor the
sum `(kapton_thickn_ + mask_thickn_) + coating_thickn_` computed in binary64,
`2.3019999999999996021...`. -/
theorem C5_layer_sum_is_not_board_thickness :
    (∃ r, ConstructWith binary64 build0 boardThinMask64 = .ok r ∧
      0 ≤ boardThinMask64.kapton_thickn_ ∧ 0 ≤ boardThinMask64.mask_thickn_ ∧
      0 ≤ boardThinMask64.coating_thickn_ ∧ 0 ≤ (selectSiPM build0 boardThinMask64).2.1 ∧
      r.1.board_size_.z = 8106479329266893 / 4503599627370496 ∧
      boardThinMask64.kapton_thickn_ + boardThinMask64.mask_thickn_ +
        boardThinMask64.coating_thickn_ = 23418718062326579 / 18014398509481984 ∧
      binary64 (binary64 (boardThinMask64.kapton_thickn_ + boardThinMask64.mask_thickn_) +
        boardThinMask64.coating_thickn_) = 5854679515581645 / 4503599627370496 ∧
      boardThinMask64.kapton_thickn_ + boardThinMask64.mask_thickn_ +
        boardThinMask64.coating_thickn_ + 1 / 2 ≤ r.1.board_size_.z ∧
      binary64 (binary64 (boardThinMask64.kapton_thickn_ + boardThinMask64.mask_thickn_) +
        boardThinMask64.coating_thickn_) + 1 / 2 ≤ r.1.board_size_.z) ∧
    (∃ r, ConstructWith binary64 build0 boardCoated64 = .ok r ∧
      0 ≤ boardCoated64.kapton_thickn_ ∧ 0 ≤ boardCoated64.mask_thickn_ ∧
      0 ≤ boardCoated64.coating_thickn_ ∧ 0 ≤ (selectSiPM build0 boardCoated64).2.1 ∧
      (selectSiPM build0 boardCoated64).2.1 ≤ boardCoated64.mask_thickn_ ∧
      r.1.board_size_.z = 5183643171103441 / 2251799813685248 ∧
      boardCoated64.kapton_thickn_ + boardCoated64.mask_thickn_ +
        boardCoated64.coating_thickn_ = 1327012651802480863 / 576460752303423488 ∧
      binary64 (binary64 (boardCoated64.kapton_thickn_ + boardCoated64.mask_thickn_) +
        boardCoated64.coating_thickn_) = 323977698193965 / 140737488355328 ∧
      r.1.board_size_.z ≠ boardCoated64.kapton_thickn_ + boardCoated64.mask_thickn_ +
        boardCoated64.coating_thickn_ ∧
      r.1.board_size_.z ≠
        binary64 (binary64 (boardCoated64.kapton_thickn_ + boardCoated64.mask_thickn_) +
          boardCoated64.coating_thickn_)) := by
  constructor
  · obtain ⟨hK, hM, hC, _, _, _, _, _, _⟩ := boardThinMask64_fields
    obtain ⟨r, hr⟩ := ConstructWith_boardThinMask64
    obtain ⟨_, _, hb, _, _⟩ := ConstructWith_ok_state hr
    have hbz : r.1.board_size_.z = 8106479329266893 / 4503599627370496 := by
      rw [hb]
      simp only [boardSizeWith, selectSiPM_build0_boardThinMask64, hK, hM, hC, binary64_evals]
    have hsum : boardThinMask64.kapton_thickn_ + boardThinMask64.mask_thickn_ +
        boardThinMask64.coating_thickn_ = 23418718062326579 / 18014398509481984 := by
      rw [hK, hM, hC]; norm_num
    have hsum64 : binary64 (binary64 (boardThinMask64.kapton_thickn_ +
        boardThinMask64.mask_thickn_) + boardThinMask64.coating_thickn_) =
        5854679515581645 / 4503599627370496 := by
      simp only [hK, hM, hC, binary64_evals]
    refine ⟨r, hr, ?_, ?_, ?_, ?_, hbz, hsum, hsum64, ?_, ?_⟩
    · rw [hK]; norm_num
    · rw [hM]; norm_num
    · rw [hC]
    · rw [selectSiPM_build0_boardThinMask64]; norm_num
    · rw [hsum, hbz]; norm_num
    · rw [hsum64, hbz]; norm_num
  · obtain ⟨hK, hM, hC, _, _, _, _, _, _⟩ := boardCoated64_fields
    obtain ⟨r, hr⟩ := ConstructWith_boardCoated64
    obtain ⟨_, _, hb, _, _⟩ := ConstructWith_ok_state hr
    have hbz : r.1.board_size_.z = 5183643171103441 / 2251799813685248 := by
      rw [hb]
      simp only [boardSizeWith, selectSiPM_build0_boardCoated64, hK, hM, hC, binary64_evals]
    have hsum : boardCoated64.kapton_thickn_ + boardCoated64.mask_thickn_ +
        boardCoated64.coating_thickn_ = 1327012651802480863 / 576460752303423488 := by
      rw [hK, hM, hC]; norm_num
    have hsum64 : binary64 (binary64 (boardCoated64.kapton_thickn_ +
        boardCoated64.mask_thickn_) + boardCoated64.coating_thickn_) =
        323977698193965 / 140737488355328 := by
      simp only [hK, hM, hC, binary64_evals]
    refine ⟨r, hr, ?_, ?_, ?_, ?_, ?_, hbz, hsum, hsum64, ?_, ?_⟩
    · rw [hK]; norm_num
    · rw [hM]; norm_num
    · rw [hC]; norm_num
    · rw [selectSiPM_build0_boardCoated64]; norm_num
    · rw [selectSiPM_build0_boardCoated64, hM]; norm_num
    · rw [hsum, hbz]; norm_num
    · rw [hsum64, hbz]; norm_num

/-! ## Claim C6: the sensor positions and the footprint of the board -/

/-- Claim C10, as amended: for thicknesses between 0 and 1000 mm and a sensor at most
1000 mm thick, a run of `Construct` in binary64 arithmetic places the kapton slab, the
mask slab and (when `coating_thickn_ > 0`) the coating slab in the board volume, whose
half thickness is the double `board_size_.z / 2`, with the z centres
`-board_size_z/2 + kapton_thickn_/2`, `-board_size_z/2 + kapton_thickn_ + mask_thickn_/2`
and `board_size_z/2 - coating_thickn_/2`, each operation rounded. Every face of the three
slabs is within `1e-11` mm of its exact position: the slabs lie in
`[-board_size_z/2 - 1e-11, board_size_z/2 + 1e-11]`, the bottom of the mask is within
`1e-11` mm of the top of the kapton, and the kapton and the mask reach at most `1e-11` mm
into the coating. The kapton vertex sampler has the origin of the kapton placement, the
x-y size of the board, the thickness `kapton_thickn_` and wall thickness 0; the kapton
box has exactly half these sizes whenever they are doubles of magnitude at least
`2 ^ (-1021)`. -/
theorem C10_layers_stack_within_rounding
    (build : SiPMSettings → G4ThreeVector × G4LogicalVolume)
    (s : NextDemoSiPMBoard) (r : NextDemoSiPMBoard × BoardVolumes)
    (hk0 : 0 ≤ s.kapton_thickn_) (hk1 : s.kapton_thickn_ ≤ 1000)
    (hm0 : 0 ≤ s.mask_thickn_) (hm1 : s.mask_thickn_ ≤ 1000)
    (hc0 : 0 ≤ s.coating_thickn_) (hc1 : s.coating_thickn_ ≤ 1000)
    (hz1 : (selectSiPM build s).2.1 ≤ 1000)
    (h : ConstructWith binary64 build s = .ok r) :
    -- the board
    r.1.board_size_.z =
      binary64 (binary64 (s.kapton_thickn_ + s.coating_thickn_) +
        max (selectSiPM build s).2.1 s.mask_thickn_) ∧
    r.2.board_logic.solid.map G4VSolid.halfZ = some (binary64 (r.1.board_size_.z / 2)) ∧
    -- the kapton slab
    r.2.kapton_phys.mother = r.2.board_logic ∧
    r.2.kapton_phys.tlate.z =
      binary64 (binary64 (-r.1.board_size_.z / 2) + binary64 (s.kapton_thickn_ / 2)) ∧
    |r.2.kapton_phys.zmin - -r.1.board_size_.z / 2| ≤ 1 / 10 ^ 11 ∧
    |r.2.kapton_phys.zmax - (-r.1.board_size_.z / 2 + s.kapton_thickn_)| ≤ 1 / 10 ^ 11 ∧
    r.2.kapton_phys.zmin ≤ r.2.kapton_phys.zmax ∧
    r.2.kapton_phys.zmax ≤ r.1.board_size_.z / 2 + 1 / 10 ^ 11 ∧
    -- the mask slab
    r.2.mask_phys.mother = r.2.board_logic ∧
    r.2.mask_phys.tlate.z =
      binary64 (binary64 (binary64 (-r.1.board_size_.z / 2) + s.kapton_thickn_) +
        binary64 (s.mask_thickn_ / 2)) ∧
    |r.2.mask_phys.zmin - r.2.kapton_phys.zmax| ≤ 1 / 10 ^ 11 ∧
    |r.2.mask_phys.zmax -
      (-r.1.board_size_.z / 2 + s.kapton_thickn_ + s.mask_thickn_)| ≤ 1 / 10 ^ 11 ∧
    -r.1.board_size_.z / 2 - 1 / 10 ^ 11 ≤ r.2.mask_phys.zmin ∧
    r.2.mask_phys.zmin ≤ r.2.mask_phys.zmax ∧
    r.2.mask_phys.zmax ≤ r.1.board_size_.z / 2 + 1 / 10 ^ 11 ∧
    -- the coating slab, placed when the coating thickness is positive
    (0 < s.coating_thickn_ → r.2.coating_phys.isSome) ∧
    (∀ cp, r.2.coating_phys = some cp →
      cp.mother = r.2.board_logic ∧
      cp.tlate.z =
        binary64 (binary64 (r.1.board_size_.z / 2) - binary64 (s.coating_thickn_ / 2)) ∧
      |cp.zmax - r.1.board_size_.z / 2| ≤ 1 / 10 ^ 11 ∧
      |cp.zmin - (r.1.board_size_.z / 2 - s.coating_thickn_)| ≤ 1 / 10 ^ 11 ∧
      -r.1.board_size_.z / 2 - 1 / 10 ^ 11 ≤ cp.zmin ∧ cp.zmin ≤ cp.zmax ∧
      r.2.kapton_phys.zmax ≤ cp.zmin + 1 / 10 ^ 11 ∧
      r.2.mask_phys.zmax ≤ cp.zmin + 1 / 10 ^ 11) ∧
    -- the kapton vertex sampler
    (∃ gen, r.1.kapton_gen_ = some gen ∧
      gen.origin = r.2.kapton_phys.tlate ∧ gen.thickness = 0 ∧
      gen.inner_x = r.1.board_size_.x ∧ gen.inner_y = r.1.board_size_.y ∧
      gen.inner_z = s.kapton_thickn_ ∧
      r.2.kapton_phys.logical.solid = some (.G4Box "KAPTON_BOARD" (binary64 (gen.inner_x / 2))
        (binary64 (gen.inner_y / 2)) (binary64 (gen.inner_z / 2))) ∧
      ((2 : ℚ) ^ (-1021 : ℤ) ≤ |gen.inner_x| → binary64 (gen.inner_x / 2) = gen.inner_x / 2) ∧
      ((2 : ℚ) ^ (-1021 : ℤ) ≤ |gen.inner_y| → binary64 (gen.inner_y / 2) = gen.inner_y / 2) ∧
      (binary64 gen.inner_z = gen.inner_z → (2 : ℚ) ^ (-1021 : ℤ) ≤ |gen.inner_z| →
        binary64 (gen.inner_z / 2) = gen.inner_z / 2)) := by
  obtain ⟨_, _, hb, _, hgen⟩ := ConstructWith_ok_state h
  obtain ⟨hbl, hkt, hks, hkm, hmt, hms, hmm, hcn, hcs⟩ := ConstructWith_ok_layers h
  have hbz : r.1.board_size_.z =
      binary64 (binary64 (s.kapton_thickn_ + s.coating_thickn_) +
        max (selectSiPM build s).2.1 s.mask_thickn_) := by
    rw [hb]; rfl
  have hT0 : 0 ≤ max (selectSiPM build s).2.1 s.mask_thickn_ := le_max_of_le_right hm0
  have hTm : s.mask_thickn_ ≤ max (selectSiPM build s).2.1 s.mask_thickn_ := le_max_right _ _
  have hT1 : max (selectSiPM build s).2.1 s.mask_thickn_ ≤ 1000 := max_le hz1 hm1
  obtain ⟨b1, b2⟩ := boardThickness_bounds s.kapton_thickn_ s.coating_thickn_
    (max (selectSiPM build s).2.1 s.mask_thickn_) hk0 hk1 hc0 hc1 hT0 hT1
  rw [← hbz] at b1 b2
  have hB0 : -1 ≤ r.1.board_size_.z := by linarith
  have hB1 : r.1.board_size_.z ≤ 3001 := by linarith
  obtain ⟨hk3, kf1, kf2, kf3, kf4⟩ :=
    kaptonFaces_bounds r.1.board_size_.z s.kapton_thickn_ hB0 hB1 hk0 hk1
  obtain ⟨hm3, mf1, mf2, mf3, mf4⟩ :=
    maskFaces_bounds r.1.board_size_.z s.kapton_thickn_ s.mask_thickn_ hB0 hB1 hk0 hk1 hm0 hm1
  obtain ⟨hc3, cf1, cf2, cf3, cf4⟩ :=
    coatingFaces_bounds r.1.board_size_.z s.coating_thickn_ hB0 hB1 hc0 hc1
  have hkmin : r.2.kapton_phys.zmin = binary64 (binary64 (-r.1.board_size_.z / 2) +
      binary64 (s.kapton_thickn_ / 2)) - binary64 (s.kapton_thickn_ / 2) := by
    simp only [G4PVPlacement.zmin, hkt, hks, Option.map_some', Option.getD_some, G4VSolid.halfZ]
  have hkmax : r.2.kapton_phys.zmax = binary64 (binary64 (-r.1.board_size_.z / 2) +
      binary64 (s.kapton_thickn_ / 2)) + binary64 (s.kapton_thickn_ / 2) := by
    simp only [G4PVPlacement.zmax, hkt, hks, Option.map_some', Option.getD_some, G4VSolid.halfZ]
  have hmmin : r.2.mask_phys.zmin =
      binary64 (binary64 (binary64 (-r.1.board_size_.z / 2) + s.kapton_thickn_) +
        binary64 (s.mask_thickn_ / 2)) - binary64 (s.mask_thickn_ / 2) := by
    simp only [G4PVPlacement.zmin, hmt, hms, Option.map_some', Option.getD_some, G4VSolid.halfZ]
  have hmmax : r.2.mask_phys.zmax =
      binary64 (binary64 (binary64 (-r.1.board_size_.z / 2) + s.kapton_thickn_) +
        binary64 (s.mask_thickn_ / 2)) + binary64 (s.mask_thickn_ / 2) := by
    simp only [G4PVPlacement.zmax, hmt, hms, Option.map_some', Option.getD_some, G4VSolid.halfZ]
  rw [← hkmin] at kf1 kf2
  rw [← hkmax] at kf3 kf4
  rw [← hmmin] at mf1 mf2
  rw [← hmmax] at mf3 mf4
  refine ⟨hbz, ?_, hkm, by rw [hkt], ?_, ?_, ?_, ?_, hmm, by rw [hmt], ?_, ?_, ?_, ?_, ?_,
    ?_, ?_, ?_⟩
  · rw [hbl]; rfl
  · rw [abs_le]; constructor <;> norm_num <;> linarith
  · rw [abs_le]; constructor <;> norm_num <;> linarith
  · rw [hkmin, hkmax]; linarith
  · norm_num; linarith
  · rw [abs_le]; constructor <;> norm_num <;> linarith
  · rw [abs_le]; constructor <;> norm_num <;> linarith
  · norm_num; linarith
  · rw [hmmin, hmmax]; linarith
  · norm_num; linarith
  · intro hpos
    obtain ⟨cp, hcp, _⟩ := hcs hpos
    rw [hcp]; rfl
  · intro cp hcp
    have hpos : s.coating_thickn_ > 0 := by
      by_contra hneg
      rw [hcn hneg] at hcp
      cases hcp
    obtain ⟨cp', hcp', hct, hcsol, hcmo⟩ := hcs hpos
    rw [hcp] at hcp'
    cases hcp'
    have hcmin : cp.zmin = binary64 (binary64 (r.1.board_size_.z / 2) -
        binary64 (s.coating_thickn_ / 2)) - binary64 (s.coating_thickn_ / 2) := by
      simp only [G4PVPlacement.zmin, hct, hcsol, Option.map_some', Option.getD_some,
        G4VSolid.halfZ]
    have hcmax : cp.zmax = binary64 (binary64 (r.1.board_size_.z / 2) -
        binary64 (s.coating_thickn_ / 2)) + binary64 (s.coating_thickn_ / 2) := by
      simp only [G4PVPlacement.zmax, hct, hcsol, Option.map_some', Option.getD_some,
        G4VSolid.halfZ]
    rw [← hcmin] at cf1 cf2
    rw [← hcmax] at cf3 cf4
    refine ⟨hcmo, by rw [hct], ?_, ?_, ?_, ?_, ?_, ?_⟩
    · rw [abs_le]; constructor <;> norm_num <;> linarith
    · rw [abs_le]; constructor <;> norm_num <;> linarith
    · norm_num; linarith
    · rw [hcmin, hcmax]; linarith
    · norm_num; linarith
    · norm_num; linarith
  · refine ⟨_, hgen, ?_, rfl, by rw [hb], by rw [hb], rfl, ?_, ?_, ?_, ?_⟩
    · rw [hkt, hb]
    · rw [hks, hb]
    · intro hbig
      apply binary64_half _ _ hbig
      simp only [boardSizeWith]
      exact binary64_idem _
    · intro hbig
      apply binary64_half _ _ hbig
      simp only [boardSizeWith]
      exact binary64_idem _
    · intro hd hbig
      exact binary64_half _ hd hbig

/-- Claim C10, as amended, on the board `boardCoated64` (kapton 0.3 mm, mask 2 mm,
membrane 0.1 mm, coating 0.002 mm, sensors 1.5 mm thick), on which `Construct` returns. -/
theorem C10_layers_stack_within_rounding_witness :
    0 ≤ boardCoated64.kapton_thickn_ ∧ boardCoated64.kapton_thickn_ ≤ 1000 ∧
    0 ≤ boardCoated64.mask_thickn_ ∧ boardCoated64.mask_thickn_ ≤ 1000 ∧
    0 ≤ boardCoated64.coating_thickn_ ∧ boardCoated64.coating_thickn_ ≤ 1000 ∧
    (selectSiPM build0 boardCoated64).2.1 ≤ 1000 ∧
    ∃ r, ConstructWith binary64 build0 boardCoated64 = .ok r ∧
      r.1.board_size_.z =
        binary64 (binary64 (boardCoated64.kapton_thickn_ + boardCoated64.coating_thickn_) +
          max (selectSiPM build0 boardCoated64).2.1 boardCoated64.mask_thickn_) ∧
      r.2.board_logic.solid.map G4VSolid.halfZ = some (binary64 (r.1.board_size_.z / 2)) ∧
      r.2.kapton_phys.mother = r.2.board_logic ∧
      r.2.kapton_phys.tlate.z =
        binary64 (binary64 (-r.1.board_size_.z / 2) + binary64 (boardCoated64.kapton_thickn_ / 2)) ∧
      |r.2.kapton_phys.zmin - -r.1.board_size_.z / 2| ≤ 1 / 10 ^ 11 ∧
      |r.2.kapton_phys.zmax - (-r.1.board_size_.z / 2 + boardCoated64.kapton_thickn_)| ≤ 1 / 10 ^ 11 ∧
      r.2.kapton_phys.zmin ≤ r.2.kapton_phys.zmax ∧
      r.2.kapton_phys.zmax ≤ r.1.board_size_.z / 2 + 1 / 10 ^ 11 ∧
      r.2.mask_phys.mother = r.2.board_logic ∧
      r.2.mask_phys.tlate.z =
        binary64 (binary64 (binary64 (-r.1.board_size_.z / 2) + boardCoated64.kapton_thickn_) +
          binary64 (boardCoated64.mask_thickn_ / 2)) ∧
      |r.2.mask_phys.zmin - r.2.kapton_phys.zmax| ≤ 1 / 10 ^ 11 ∧
      |r.2.mask_phys.zmax -
        (-r.1.board_size_.z / 2 + boardCoated64.kapton_thickn_ + boardCoated64.mask_thickn_)| ≤ 1 / 10 ^ 11 ∧
      -r.1.board_size_.z / 2 - 1 / 10 ^ 11 ≤ r.2.mask_phys.zmin ∧
      r.2.mask_phys.zmin ≤ r.2.mask_phys.zmax ∧
      r.2.mask_phys.zmax ≤ r.1.board_size_.z / 2 + 1 / 10 ^ 11 ∧
      (0 < boardCoated64.coating_thickn_ → r.2.coating_phys.isSome) ∧
      (∀ cp, r.2.coating_phys = some cp →
        cp.mother = r.2.board_logic ∧
        cp.tlate.z =
          binary64 (binary64 (r.1.board_size_.z / 2) - binary64 (boardCoated64.coating_thickn_ / 2)) ∧
        |cp.zmax - r.1.board_size_.z / 2| ≤ 1 / 10 ^ 11 ∧
        |cp.zmin - (r.1.board_size_.z / 2 - boardCoated64.coating_thickn_)| ≤ 1 / 10 ^ 11 ∧
        -r.1.board_size_.z / 2 - 1 / 10 ^ 11 ≤ cp.zmin ∧ cp.zmin ≤ cp.zmax ∧
        r.2.kapton_phys.zmax ≤ cp.zmin + 1 / 10 ^ 11 ∧
        r.2.mask_phys.zmax ≤ cp.zmin + 1 / 10 ^ 11) ∧
      (∃ gen, r.1.kapton_gen_ = some gen ∧
        gen.origin = r.2.kapton_phys.tlate ∧ gen.thickness = 0 ∧
        gen.inner_x = r.1.board_size_.x ∧ gen.inner_y = r.1.board_size_.y ∧
        gen.inner_z = boardCoated64.kapton_thickn_ ∧
        r.2.kapton_phys.logical.solid = some (.G4Box "KAPTON_BOARD" (binary64 (gen.inner_x / 2))
          (binary64 (gen.inner_y / 2)) (binary64 (gen.inner_z / 2))) ∧
        ((2 : ℚ) ^ (-1021 : ℤ) ≤ |gen.inner_x| → binary64 (gen.inner_x / 2) = gen.inner_x / 2) ∧
        ((2 : ℚ) ^ (-1021 : ℤ) ≤ |gen.inner_y| → binary64 (gen.inner_y / 2) = gen.inner_y / 2) ∧
        (binary64 gen.inner_z = gen.inner_z → (2 : ℚ) ^ (-1021 : ℤ) ≤ |gen.inner_z| →
          binary64 (gen.inner_z / 2) = gen.inner_z / 2)) := by
  obtain ⟨hK, hM, hC, _, _, _, _, _, _⟩ := boardCoated64_fields
  have hk0 : 0 ≤ boardCoated64.kapton_thickn_ := by rw [hK]; norm_num
  have hk1 : boardCoated64.kapton_thickn_ ≤ 1000 := by rw [hK]; norm_num
  have hm0 : 0 ≤ boardCoated64.mask_thickn_ := by rw [hM]; norm_num
  have hm1 : boardCoated64.mask_thickn_ ≤ 1000 := by rw [hM]; norm_num
  have hc0 : 0 ≤ boardCoated64.coating_thickn_ := by rw [hC]; norm_num
  have hc1 : boardCoated64.coating_thickn_ ≤ 1000 := by rw [hC]; norm_num
  have hz1 : (selectSiPM build0 boardCoated64).2.1 ≤ 1000 := by
    rw [selectSiPM_build0_boardCoated64]; norm_num
  obtain ⟨r, hr⟩ := ConstructWith_boardCoated64
  exact ⟨hk0, hk1, hm0, hm1, hc0, hc1, hz1, r, hr,
    C10_layers_stack_within_rounding build0 boardCoated64 r hk0 hk1 hm0 hm1 hc0 hc1 hz1 hr⟩

/-- Counterexample to claim C10: on the board `board64`, which has the constructor's
thicknesses (kapton 0.3 mm, mask 2 mm, no coating) and sensors 1.5 mm thick, `Construct`
in binary64 arithmetic computes `board_size_.z = 2.2999999999999998` and places the mask
at `z = 0.15000000000000013`, so that the top face of the mask, at
`1.1500000000000001`, lies above the top `board_size_.z / 2 = 1.1499999999999999` of the
board, and the bottom face of the mask lies strictly above the top face of the kapton:
the mask is not contained in the board and the two faces do not coincide. -/
theorem C10_default_mask_sticks_out_of_board :
    ∃ r, ConstructWith binary64 build0 board64 = .ok r ∧
      0 ≤ board64.kapton_thickn_ ∧ 0 ≤ board64.mask_thickn_ ∧ 0 ≤ board64.coating_thickn_ ∧
      0 ≤ (selectSiPM build0 board64).2.1 ∧
      r.1.board_size_.z = 2589569785738035 / 1125899906842624 ∧
      r.2.mask_phys.tlate.z = 675539944105575 / 4503599627370496 ∧
      r.2.mask_phys.zmax = 5179139571476071 / 4503599627370496 ∧
      r.1.board_size_.z / 2 < r.2.mask_phys.zmax ∧
      r.2.kapton_phys.zmax = -(30624477466119369 / 36028797018963968) ∧
      r.2.mask_phys.zmin = -(3828059683264921 / 4503599627370496) ∧
      r.2.kapton_phys.zmax < r.2.mask_phys.zmin := by
  obtain ⟨hK, hM, hC, _, _, _, _, _, _⟩ := board64_fields
  obtain ⟨r, hr⟩ := ConstructWith_board64
  obtain ⟨_, _, hb, _, _⟩ := ConstructWith_ok_state hr
  obtain ⟨_, hkt, hks, _, hmt, hms, _, _, _⟩ := ConstructWith_ok_layers hr
  have hbz : r.1.board_size_.z = 2589569785738035 / 1125899906842624 := by
    rw [hb]
    simp only [boardSizeWith, selectSiPM_build0_board64, hK, hM, hC, binary64_evals]
  have hmz : r.2.mask_phys.tlate.z = 675539944105575 / 4503599627370496 := by
    simp only [hmt, hbz, hK, hM, hC, binary64_evals]
  have hmax : r.2.mask_phys.zmax = 5179139571476071 / 4503599627370496 := by
    simp only [G4PVPlacement.zmax, hmt, hms, hbz, Option.map_some', Option.getD_some,
      G4VSolid.halfZ, hK, hM, hC, binary64_evals]
    norm_num
  have hmin : r.2.mask_phys.zmin = -(3828059683264921 / 4503599627370496) := by
    simp only [G4PVPlacement.zmin, hmt, hms, hbz, Option.map_some', Option.getD_some,
      G4VSolid.halfZ, hK, hM, hC, binary64_evals]
    norm_num
  have hkmax : r.2.kapton_phys.zmax = -(30624477466119369 / 36028797018963968) := by
    simp only [G4PVPlacement.zmax, hkt, hks, hbz, Option.map_some', Option.getD_some,
      G4VSolid.halfZ, hK, hM, hC, binary64_evals]
    norm_num
  refine ⟨r, hr, ?_, ?_, ?_, ?_, hbz, hmz, hmax, ?_, hkmax, hmin, ?_⟩
  · rw [hK]; norm_num
  · rw [hM]; norm_num
  · rw [hC]
  · rw [selectSiPM_build0_board64]; norm_num
  · rw [hbz, hmax]; norm_num
  · rw [hkmax, hmin]; norm_num

end nexus
